import Mathlib

/-!
# Verification of the rust-nfdump decoder

Shallow embedding of the nfdump-archive decoder (`src/compress.rs`,
`src/error.rs`, `src/nfx.rs`, `src/exporter.rs`, `src/nffilev1.rs`,
`src/nffilev2.rs`, `src/record.rs`, `src/nfx_v3.rs`, `src/block.rs`,
`src/lib.rs`) over byte lists.  Machine integers are modelled as `Nat`;
every multi-byte read is little-endian, mirroring the `byteorder`
`read_u16/u32/u64/u128::<LittleEndian>` calls of the source.  Fallible
reads return `Option`; `none` stands for the `Err`/panic path of the
corresponding Rust call at each site (noted per definition).
-/

namespace RustNfdump

/-! ## Byte-cursor primitives

A cursor over decompressed bytes (`std::io::Cursor<Vec<u8>>`) is a
`List Nat`; reading consumes from the front.  A failed `read_exact` on a
`Cursor` does not advance the position, which is visible below in that a
failing read simply returns `none` and callers that swallow the error keep
the unconsumed list. -/

/-- `read_u8`: one byte off the cursor. -/
def readU8 : List Nat → Option (Nat × List Nat)
  | [] => none
  | b :: rest => some (b % 256, rest)

/-- `read_u16/u32/u64/u128::<LittleEndian>` for `n` = 2, 4, 8, 16: `n` bytes
off the cursor, least significant first. -/
def readLE : Nat → List Nat → Option (Nat × List Nat)
  | 0, xs => some (0, xs)
  | n + 1, xs =>
    match readU8 xs with
    | none => none
    | some (b, rest) =>
      match readLE n rest with
      | none => none
      | some (v, rest2) => some (b + 256 * v, rest2)

/-- The little-endian value of the first `n` bytes of a list. -/
def leVal : List Nat → Nat → Nat
  | _, 0 => 0
  | [], _ + 1 => 0
  | b :: rest, n + 1 => b % 256 + 256 * leVal rest n

/-- `read_exact` into a buffer of `n` bytes: succeeds only when `n` bytes
remain, and then yields them and the advanced cursor. -/
def readExact (n : Nat) (xs : List Nat) : Option (List Nat × List Nat) :=
  if n ≤ xs.length then some (xs.take n, xs.drop n) else none

theorem readU8_chunk (c rest : List Nat) (h : c.length = 1) :
    readU8 (c ++ rest) = some (leVal c 1, rest) := by
  match c, h with
  | [b], _ => simp [readU8, leVal]

theorem readLE_chunk (n : Nat) (c rest : List Nat) (h : c.length = n) :
    readLE n (c ++ rest) = some (leVal c n, rest) := by
  induction c generalizing n with
  | nil => subst h; rfl
  | cons b bs ih =>
    subst h
    simp [readLE, readU8, leVal, ih bs.length rfl]

theorem readExact_chunk (n : Nat) (c rest : List Nat) (h : c.length = n) :
    readExact n (c ++ rest) = some (c, rest) := by
  subst h
  simp [readExact, List.take_left, List.drop_left]

/-! ## Codec layer (`src/compress.rs`) -/

/-- compress.rs constants (note the source maps `PLAIN` to 3 and `LZ4` to 1,
and has no LZO or Zstd constant at all; the `LZO = 0` line is commented
out in the source). -/
def NFDUMP_COMPRESSION_TYPE_PLAIN : Nat := 3

def NFDUMP_COMPRESSION_TYPE_LZ4 : Nat := 1

def NFDUMP_COMPRESSION_TYPE_BZ2 : Nat := 2

/-- compress.rs `BUFSIZE`: the fixed decompression buffer, 5 MiB. -/
def BUFSIZE : Nat := 5 * 1048576

/-- compress.rs `enum Decompressor`: the three codec variants that exist in
the source.  `Lz4` holds the eagerly decompressed bytes, `Bz2` the
compressed bytes behind a `BzDecoder`, `Plain` the raw bytes. -/
inductive Decompressor where
  | Lz4 (d : List Nat)
  | Bz2 (d : List Nat)
  | Plain (d : List Nat)
deriving DecidableEq, Repr

/-- The two `io::Error` values `Decompressor::new` and
`Lz4Decompressor::new` construct: "Unsupported compression" and
"Lz4 decompression failed". -/
inductive CompressionError where
  | unsupportedCompression
  | lz4DecompressionFailed
deriving DecidableEq, Repr

/-- compress.rs `Decompressor::new(dtype, data)`.  The LZ4 block decoding is
done by the external `lz4_flex` crate, passed here as the function `lz4`
(`none` models its `Err`, which the source maps to size 0); a size of 0
yields the "Lz4 decompression failed" error, a positive size the `Lz4`
variant holding the decompressed bytes.  Ids 2 and 3 construct the `Bz2`
and `Plain` variants over the input bytes; every other id is rejected with
"Unsupported compression". -/
def Decompressor.new (lz4 : List Nat → Option (List Nat)) (dtype : Nat)
    (data : List Nat) : Except CompressionError Decompressor :=
  if dtype = NFDUMP_COMPRESSION_TYPE_LZ4 then
    match lz4 data with
    | some out =>
      if 1 ≤ out.length then .ok (.Lz4 out)
      else .error .lz4DecompressionFailed
    | none => .error .lz4DecompressionFailed
  else if dtype = NFDUMP_COMPRESSION_TYPE_BZ2 then .ok (.Bz2 data)
  else if dtype = NFDUMP_COMPRESSION_TYPE_PLAIN then .ok (.Plain data)
  else .error .unsupportedCompression

/-! ## Error kinds (`src/error.rs`) -/

/-- error.rs `NfdumpErrorKind`.  Note there is no `UnsupportedCompression`,
`UnsupportedVersion` or `UnexpectedAddressFamily` variant in the source;
the exporter-related kind is named `UnexpectedSAInExporter`. -/
inductive NfdumpErrorKind where
  | eof
  | ioError
  | invalidFile
  | unexpectedSAInExporter
  | parseError
deriving DecidableEq, Repr

/-! ## Header magic validation -/

/-- Modelled from the spec: the current-generation open path that reads and
validates the file magic is not under src/ — src's lib.rs is an earlier
snapshot whose `read_header` reads the magic without checking it, and
nffilev1.rs/nffilev2.rs `From<Vec<u8>>` hardcode `magic: 0xa50c`,
presuming a caller that has already consumed and validated the first four
bytes; error.rs declares the `InvalidFile` kind for it.  Per the spec:
"Read 2-byte little-endian magic; must equal the fixed constant or fail
`InvalidFile`." -/
def read_and_check_magic (file : List Nat) : Except NfdumpErrorKind Nat :=
  match readLE 2 file with
  | none => .error .ioError
  | some (m, _) => if m = 0xa50c then .ok m else .error .invalidFile

/-- C1: the claim says ids 0/1/2/3/4 select plain/LZO/BZ2/LZ4/Zstd.  On the
code, id 0 is rejected as unsupported (not plain), id 4 is rejected (there
is no Zstd codec), and id 3 selects the plain codec (not LZ4): refuted at
the concrete ids 0, 4 and 3. -/
theorem C1_counterexample :
    Decompressor.new (fun _ => none) 0 [] =
      .error CompressionError.unsupportedCompression ∧
    Decompressor.new (fun _ => none) 4 [] =
      .error CompressionError.unsupportedCompression ∧
    Decompressor.new (fun _ => none) 3 [9, 9] =
      .ok (Decompressor.Plain [9, 9]) :=
  ⟨rfl, rfl, rfl⟩

/-- C1 (amended): the factory maps id 1 to LZ4 (when the external block
decompression yields at least one byte), id 2 to BZ2, id 3 to plain, and
fails with the unsupported-compression error for every other id — in
particular for 0 and 4; no LZO or Zstd codec exists. -/
theorem C1_codec_factory_mapping (lz4 : List Nat → Option (List Nat))
    (dtype : Nat) (data : List Nat) :
    (dtype = 1 → ∀ out, lz4 data = some out → 1 ≤ out.length →
      Decompressor.new lz4 dtype data = .ok (.Lz4 out)) ∧
    (dtype = 2 → Decompressor.new lz4 dtype data = .ok (.Bz2 data)) ∧
    (dtype = 3 → Decompressor.new lz4 dtype data = .ok (.Plain data)) ∧
    (dtype ≠ 1 → dtype ≠ 2 → dtype ≠ 3 →
      Decompressor.new lz4 dtype data =
        .error .unsupportedCompression) := by
  refine ⟨?_, ?_, ?_, ?_⟩
  · intro h out hout hlen
    subst h
    simp [Decompressor.new, NFDUMP_COMPRESSION_TYPE_LZ4, hout, hlen]
  · intro h
    subst h
    simp [Decompressor.new, NFDUMP_COMPRESSION_TYPE_LZ4,
      NFDUMP_COMPRESSION_TYPE_BZ2]
  · intro h
    subst h
    simp [Decompressor.new, NFDUMP_COMPRESSION_TYPE_LZ4,
      NFDUMP_COMPRESSION_TYPE_BZ2, NFDUMP_COMPRESSION_TYPE_PLAIN]
  · intro h1 h2 h3
    simp [Decompressor.new, NFDUMP_COMPRESSION_TYPE_LZ4,
      NFDUMP_COMPRESSION_TYPE_BZ2, NFDUMP_COMPRESSION_TYPE_PLAIN,
      h1, h2, h3]

theorem C1_witness :
    Decompressor.new (fun d => some d) 1 [7] = .ok (.Lz4 [7]) ∧
    Decompressor.new (fun d => some d) 2 [7] = .ok (.Bz2 [7]) ∧
    Decompressor.new (fun d => some d) 3 [7] = .ok (.Plain [7]) ∧
    Decompressor.new (fun d => some d) 0 [7] =
      .error .unsupportedCompression :=
  ⟨(C1_codec_factory_mapping (fun d => some d) 1 [7]).1 rfl [7] rfl
      (by decide),
   (C1_codec_factory_mapping (fun d => some d) 2 [7]).2.1 rfl,
   (C1_codec_factory_mapping (fun d => some d) 3 [7]).2.2.1 rfl,
   (C1_codec_factory_mapping (fun d => some d) 0 [7]).2.2.2 (by decide)
      (by decide) (by decide)⟩

/-- C2: a file whose first two bytes are `0x0c 0xa5` (little-endian
`0xa50c`) passes the magic check; any other first two bytes fail with
`InvalidFile`. -/
theorem C2_magic_check (b0 b1 : Nat) (rest : List Nat) :
    (b0 = 0x0c → b1 = 0xa5 →
      read_and_check_magic (b0 :: b1 :: rest) = .ok 0xa50c) ∧
    (b0 % 256 + 256 * (b1 % 256) ≠ 0xa50c →
      read_and_check_magic (b0 :: b1 :: rest) =
        .error NfdumpErrorKind.invalidFile) := by
  constructor
  · intro h0 h1
    subst h0; subst h1
    rfl
  · intro hne
    have : readLE 2 (b0 :: b1 :: rest) =
        some (b0 % 256 + 256 * (b1 % 256), rest) := by
      simp [readLE, readU8]
    simp [read_and_check_magic, this, hne]

theorem C2_witness :
    read_and_check_magic [0x0c, 0xa5, 0, 0] = .ok 0xa50c ∧
    read_and_check_magic [0x0d, 0xa5, 0, 0] =
      .error NfdumpErrorKind.invalidFile :=
  ⟨(C2_magic_check 0x0c 0xa5 [0, 0]).1 rfl rfl,
   (C2_magic_check 0x0d 0xa5 [0, 0]).2 (by decide)⟩

/-! ## Record framing header -/

/-- The 4-byte record header: `rtype: u16`, `size: u16` (total size
including the header).  Named `NfFileRecordHeaderV1` in lib.rs and
`NfFileRecordHeader` in record.rs; one structure serves both. -/
structure NfFileRecordHeader where
  rtype : Nat
  size : Nat
deriving DecidableEq, Repr

/-! ## Extension map decoder (`src/nfx.rs`) -/

/-- nfx.rs `ExtensionMap`. -/
structure ExtensionMap where
  header : NfFileRecordHeader
  map_id : Nat
  extension_size : Nat
  ex_id : List Nat
deriving DecidableEq, Repr

/-- The id-reading loop of `read_extension_map`:
`while let Some(id) = cursor.read_u16 ... if id == 0 continue; push id`.
Stops as soon as a full u16 cannot be read (a trailing odd byte is
dropped); zero ids are skipped. -/
def readExIds : List Nat → List Nat
  | b0 :: b1 :: rest =>
    if b0 % 256 + 256 * (b1 % 256) = 0 then readExIds rest
    else (b0 % 256 + 256 * (b1 % 256)) :: readExIds rest
  | _ => []

/-- Reference reading of the spec's words: the payload as a plain sequence
of little-endian u16 ids, unfiltered, read until exhaustion. -/
def u16Ids : List Nat → List Nat
  | b0 :: b1 :: rest => (b0 % 256 + 256 * (b1 % 256)) :: u16Ids rest
  | _ => []

/-- nfx.rs `read_extension_map`: map_id (u16), extension_size (u16), then
the id loop.  `none` models the `.ok().unwrap()` panic on a payload
shorter than 4 bytes; the `NfFileRecord::ExtensionMap` wrapper the source
always returns is flattened to the `ExtensionMap` it carries. -/
def read_extension_map (header : NfFileRecordHeader) (record_data : List Nat) :
    Option ExtensionMap :=
  match readLE 2 record_data with
  | none => none
  | some (map_id, r1) =>
    match readLE 2 r1 with
    | none => none
    | some (extension_size, r2) =>
      some ⟨header, map_id, extension_size, readExIds r2⟩

/-- lib.rs `read_record`, `header.rtype == 2` branch (lines 187–199): the
decoded map's `ex_id` is assigned to `self.extensions` wholesale.  The
`extensions` argument is the prior value of `self.extensions`; it does not
appear in the result. -/
def update_extensions_on_map (_extensions : List Nat)
    (header : NfFileRecordHeader) (record_data : List Nat) :
    Option (List Nat) :=
  match read_extension_map header record_data with
  | none => none
  | some em => some em.ex_id

theorem readExIds_eq_filter :
    ∀ xs : List Nat, readExIds xs = (u16Ids xs).filter (fun i => i != 0)
  | [] => rfl
  | [_] => rfl
  | b0 :: b1 :: rest => by
    have ih := readExIds_eq_filter rest
    by_cases h : b0 % 256 + 256 * (b1 % 256) = 0
    · simp [readExIds, u16Ids, h, ih]
    · simp [readExIds, u16Ids, h, ih]

/-- C5: an Extension Map record decodes as map_id (u16), extension_size
(u16), then the rest of the payload as u16 ids with exactly the zero ids
removed and order preserved; processing it replaces the reader's active
extension list in full (the prior list does not influence the result). -/
theorem C5_extension_map_decode_and_replace (prior : List Nat)
    (hd : NfFileRecordHeader) (c1 c2 payload : List Nat)
    (h1 : c1.length = 2) (h2 : c2.length = 2) :
    read_extension_map hd (c1 ++ (c2 ++ payload)) =
      some ⟨hd, leVal c1 2, leVal c2 2, readExIds payload⟩ ∧
    readExIds payload = (u16Ids payload).filter (fun i => i != 0) ∧
    update_extensions_on_map prior hd (c1 ++ (c2 ++ payload)) =
      some (readExIds payload) := by
  have hmap : read_extension_map hd (c1 ++ (c2 ++ payload)) =
      some ⟨hd, leVal c1 2, leVal c2 2, readExIds payload⟩ := by
    simp [read_extension_map, readLE_chunk 2 c1 (c2 ++ payload) h1,
      readLE_chunk 2 c2 payload h2]
  refine ⟨hmap, readExIds_eq_filter payload, ?_⟩
  simp [update_extensions_on_map, hmap]

theorem C5_witness :
    read_extension_map ⟨2, 12⟩ ([1, 0] ++ ([4, 0] ++ [4, 0, 0, 0, 7, 0])) =
      some ⟨⟨2, 12⟩, 1, 4, [4, 7]⟩ ∧
    update_extensions_on_map [9] ⟨2, 12⟩
        ([1, 0] ++ ([4, 0] ++ [4, 0, 0, 0, 7, 0])) = some [4, 7] := by
  have h := C5_extension_map_decode_and_replace [9] ⟨2, 12⟩ [1, 0] [4, 0]
    [4, 0, 0, 0, 7, 0] rfl rfl
  exact ⟨h.1.trans (by decide), h.2.2.trans (by decide)⟩

/-! ## Exporter records (`src/exporter.rs`) -/

def AF_INET : Nat := 2

def AF_INET6 : Nat := 10

/-- exporter.rs `ExporterInfoRecordV1`. -/
structure ExporterInfoRecordV1 where
  header : NfFileRecordHeader
  version : Nat
  v4_addr : Option Nat
  v6_addr : Option Nat
  sa_family : Nat
  sysid : Nat
  id : Nat
deriving DecidableEq, Repr

/-- exporter.rs `read_exporter_record` (lines 42–76): version (u32), a
128-bit address field, sa_family (u16), sysid (u16), id (u16).  `none`
models the `.unwrap()` panics on a short payload.  The `(addr >> 64) as
u32` truncation is written `% 2^32`.  Note there is no failure path for
the family tag: for a tag that is neither `AF_INET` (2) nor `AF_INET6`
(10), both `v4_addr` and `v6_addr` are populated. -/
def read_exporter_record (header : NfFileRecordHeader)
    (record_data : List Nat) : Option ExporterInfoRecordV1 :=
  match readLE 4 record_data with
  | none => none
  | some (version, c1) =>
    match readLE 16 c1 with
    | none => none
    | some (addr, c2) =>
      match readLE 2 c2 with
      | none => none
      | some (sa, c3) =>
        match readLE 2 c3 with
        | none => none
        | some (sysid, c4) =>
          match readLE 2 c4 with
          | none => none
          | some (id, _) =>
            some { header := header, version := version,
                   v4_addr := if sa = AF_INET6 then none
                     else some ((addr >>> 64) % 2 ^ 32),
                   v6_addr := if sa = AF_INET then none else some addr,
                   sa_family := sa, sysid := sysid, id := id }

/-- C9: the claim says a family tag that is neither 2 nor 10 makes the
decoder fail with `UnexpectedAddressFamily`.  On the code, decoding an
exporter record with family tag 5 succeeds, and both the v4 and the v6
address are populated; no address-family error exists (error.rs has only
an unused `UnexpectedSAInExporter` kind, and `read_exporter_record` has no
failure path for the tag). -/
theorem C9_counterexample :
    read_exporter_record ⟨7, 28⟩
        [0, 0, 0, 0,
         0, 0, 0, 0, 0, 0, 0, 0, 0, 0, 0, 0, 0, 0, 0, 0,
         5, 0, 1, 0, 2, 0] =
      some ⟨⟨7, 28⟩, 0, some 0, some 0, 5, 1, 2⟩ := by decide

/-- C9 (amended): decoding an Exporter Info record never fails on the
address-family tag.  The v6 address is absent exactly when the tag is the
IPv4 constant (2), the v4 address is absent exactly when the tag is the
IPv6 constant (10), and for any other tag both are populated (the v4
address from the upper 64 bits of the 128-bit field, truncated to 32
bits). -/
theorem C9_exporter_family (hd : NfFileRecordHeader)
    (cv ca cs cy ci rest : List Nat) (hv : cv.length = 4)
    (ha : ca.length = 16) (hs : cs.length = 2) (hy : cy.length = 2)
    (hi : ci.length = 2) :
    read_exporter_record hd (cv ++ (ca ++ (cs ++ (cy ++ (ci ++ rest))))) =
      some { header := hd, version := leVal cv 4,
             v4_addr := if leVal cs 2 = 10 then none
               else some ((leVal ca 16 >>> 64) % 2 ^ 32),
             v6_addr := if leVal cs 2 = 2 then none
               else some (leVal ca 16),
             sa_family := leVal cs 2, sysid := leVal cy 2,
             id := leVal ci 2 } := by
  simp [read_exporter_record, AF_INET, AF_INET6, readLE_chunk, hv, ha, hs,
    hy, hi]

theorem C9_witness :
    read_exporter_record ⟨7, 28⟩
        ([1, 0, 0, 0] ++
          ([0, 0, 0, 0, 0, 0, 0, 0, 9, 0, 0, 0, 0, 0, 0, 0] ++
            ([2, 0] ++ ([3, 0] ++ ([4, 0] ++ []))))) =
      some ⟨⟨7, 28⟩, 1, some 9, none, 2, 3, 4⟩ := by
  have h := C9_exporter_family ⟨7, 28⟩ [1, 0, 0, 0]
    [0, 0, 0, 0, 0, 0, 0, 0, 9, 0, 0, 0, 0, 0, 0, 0] [2, 0] [3, 0] [4, 0]
    [] rfl rfl rfl rfl rfl
  exact h.trans (by decide)

/-! ## V2 stat record (`src/nffilev2.rs`) -/

/-- nffilev2.rs `StatRecordV2`: eighteen 64-bit counters. -/
structure StatRecordV2 where
  flows : Nat
  bytes : Nat
  packets : Nat
  flows_tcp : Nat
  flows_udp : Nat
  flows_icmp : Nat
  flows_other : Nat
  bytes_tcp : Nat
  bytes_udp : Nat
  bytes_icmp : Nat
  bytes_other : Nat
  packets_tcp : Nat
  packets_udp : Nat
  packets_icmp : Nat
  packets_other : Nat
  first_seen : Nat
  last_seen : Nat
  sequence_failure : Nat
deriving Repr

/-- nffilev2.rs `impl From<Vec<u8>> for StatRecordV2` (lines 58–83):
eighteen sequential little-endian u64 reads.  `none` models the
`.unwrap()` panic on a payload shorter than 144 bytes. -/
def StatRecordV2.fromBytes (value : List Nat) : Option StatRecordV2 :=
  match readLE 8 value with
  | none => none
  | some (flows, c) =>
  match readLE 8 c with
  | none => none
  | some (bytes, c) =>
  match readLE 8 c with
  | none => none
  | some (packets, c) =>
  match readLE 8 c with
  | none => none
  | some (flows_tcp, c) =>
  match readLE 8 c with
  | none => none
  | some (flows_udp, c) =>
  match readLE 8 c with
  | none => none
  | some (flows_icmp, c) =>
  match readLE 8 c with
  | none => none
  | some (flows_other, c) =>
  match readLE 8 c with
  | none => none
  | some (bytes_tcp, c) =>
  match readLE 8 c with
  | none => none
  | some (bytes_udp, c) =>
  match readLE 8 c with
  | none => none
  | some (bytes_icmp, c) =>
  match readLE 8 c with
  | none => none
  | some (bytes_other, c) =>
  match readLE 8 c with
  | none => none
  | some (packets_tcp, c) =>
  match readLE 8 c with
  | none => none
  | some (packets_udp, c) =>
  match readLE 8 c with
  | none => none
  | some (packets_icmp, c) =>
  match readLE 8 c with
  | none => none
  | some (packets_other, c) =>
  match readLE 8 c with
  | none => none
  | some (first_seen, c) =>
  match readLE 8 c with
  | none => none
  | some (last_seen, c) =>
  match readLE 8 c with
  | none => none
  | some (sequence_failure, _) =>
  some { flows, bytes, packets, flows_tcp, flows_udp, flows_icmp,
         flows_other, bytes_tcp, bytes_udp, bytes_icmp, bytes_other,
         packets_tcp, packets_udp, packets_icmp, packets_other,
         first_seen, last_seen, sequence_failure }

/-- C8: the claim says a v2 Stat record consists of exactly 17 64-bit
fields.  On the code, the decoder reads eighteen u64 fields (3 totals + 12
per-protocol counters + first/last-seen + sequence-failure = 18): a
payload of 17 × 8 = 136 bytes is too short and decoding it fails (the
source panics on the eighteenth read). -/
theorem C8_counterexample :
    StatRecordV2.fromBytes (List.replicate 136 0) = none := rfl

/-- C8 (amended): a v2 Stat record consists of exactly eighteen 64-bit
fields — totals, per-protocol flow/byte/packet counts, first/last-seen,
sequence-failure — and decoding populates the stat structure from exactly
those little-endian u64 fields in that order. -/
theorem C8_stat_record_fields
    (c1 c2 c3 c4 c5 c6 c7 c8 c9 c10 c11 c12 c13 c14 c15 c16 c17 c18
      rest : List Nat)
    (h1 : c1.length = 8) (h2 : c2.length = 8) (h3 : c3.length = 8)
    (h4 : c4.length = 8) (h5 : c5.length = 8) (h6 : c6.length = 8)
    (h7 : c7.length = 8) (h8 : c8.length = 8) (h9 : c9.length = 8)
    (h10 : c10.length = 8) (h11 : c11.length = 8) (h12 : c12.length = 8)
    (h13 : c13.length = 8) (h14 : c14.length = 8) (h15 : c15.length = 8)
    (h16 : c16.length = 8) (h17 : c17.length = 8) (h18 : c18.length = 8) :
    StatRecordV2.fromBytes
        (c1 ++ (c2 ++ (c3 ++ (c4 ++ (c5 ++ (c6 ++ (c7 ++ (c8 ++ (c9 ++
          (c10 ++ (c11 ++ (c12 ++ (c13 ++ (c14 ++ (c15 ++ (c16 ++
            (c17 ++ (c18 ++ rest)))))))))))))))))) =
      some { flows := leVal c1 8, bytes := leVal c2 8,
             packets := leVal c3 8, flows_tcp := leVal c4 8,
             flows_udp := leVal c5 8, flows_icmp := leVal c6 8,
             flows_other := leVal c7 8, bytes_tcp := leVal c8 8,
             bytes_udp := leVal c9 8, bytes_icmp := leVal c10 8,
             bytes_other := leVal c11 8, packets_tcp := leVal c12 8,
             packets_udp := leVal c13 8, packets_icmp := leVal c14 8,
             packets_other := leVal c15 8, first_seen := leVal c16 8,
             last_seen := leVal c17 8,
             sequence_failure := leVal c18 8 } := by
  simp [StatRecordV2.fromBytes, readLE_chunk, h1, h2, h3, h4, h5, h6, h7,
    h8, h9, h10, h11, h12, h13, h14, h15, h16, h17, h18]

theorem C8_witness :
    StatRecordV2.fromBytes
        (List.replicate 8 0 ++ (List.replicate 8 0 ++ (List.replicate 8 0
          ++ (List.replicate 8 0 ++ (List.replicate 8 0 ++
          (List.replicate 8 0 ++ (List.replicate 8 0 ++
          (List.replicate 8 0 ++ (List.replicate 8 0 ++
          (List.replicate 8 0 ++ (List.replicate 8 0 ++
          (List.replicate 8 0 ++ (List.replicate 8 0 ++
          (List.replicate 8 0 ++ (List.replicate 8 0 ++
          (List.replicate 8 0 ++ (List.replicate 8 0 ++
          ([42, 0, 0, 0, 0, 0, 0, 0] ++ [])))))))))))))))))) =
      some { flows := 0, bytes := 0, packets := 0, flows_tcp := 0,
             flows_udp := 0, flows_icmp := 0, flows_other := 0,
             bytes_tcp := 0, bytes_udp := 0, bytes_icmp := 0,
             bytes_other := 0, packets_tcp := 0, packets_udp := 0,
             packets_icmp := 0, packets_other := 0, first_seen := 0,
             last_seen := 0, sequence_failure := 42 } := by
  have h := C8_stat_record_fields (List.replicate 8 0) (List.replicate 8 0)
    (List.replicate 8 0) (List.replicate 8 0) (List.replicate 8 0)
    (List.replicate 8 0) (List.replicate 8 0) (List.replicate 8 0)
    (List.replicate 8 0) (List.replicate 8 0) (List.replicate 8 0)
    (List.replicate 8 0) (List.replicate 8 0) (List.replicate 8 0)
    (List.replicate 8 0) (List.replicate 8 0) (List.replicate 8 0)
    [42, 0, 0, 0, 0, 0, 0, 0] [] rfl rfl rfl rfl rfl rfl rfl rfl rfl rfl
    rfl rfl rfl rfl rfl rfl rfl rfl
  rw [h]
  rfl

/-! ## Legacy Common Record decoder (`src/record.rs`) -/

/-- `std::net::IpAddr`: a v4 or v6 address, kept numeric. -/
inductive IpAddr where
  | v4 (a : Nat)
  | v6 (a : Nat)
deriving DecidableEq, Repr

/-- record.rs `Record` (the legacy Common Record, type `0x000a`). -/
structure Record where
  head : NfFileRecordHeader
  flags : Nat
  ext_map : Nat
  msec_first : Nat
  msec_last : Nat
  first : Nat
  last : Nat
  fwd_status : Nat
  tcp_flags : Nat
  prot : Nat
  tos : Nat
  src_port : Nat
  dst_port : Nat
  exporter_sysid : Nat
  bi_flow_dir : Nat
  flow_end_reason : Nat
  src_addr : IpAddr
  dst_addr : IpAddr
  packets : Nat
  bytes : Nat
  input : Option Nat
  output : Option Nat
  src_as : Option Nat
  dst_as : Option Nat
deriving Repr

/-- record.rs `read_addr`: flags bit `0x01` clear reads an IPv4 address
(u32), set reads an IPv6 address (u128). -/
def read_addr (flags : Nat) (cur : List Nat) : Option (IpAddr × List Nat) :=
  if flags &&& 0x01 = 0 then
    match readLE 4 cur with
    | none => none
    | some (v, r) => some (IpAddr.v4 v, r)
  else
    match readLE 16 cur with
    | none => none
    | some (v, r) => some (IpAddr.v6 v, r)

/-- record.rs `read_pkt_or_byt`: flags bit `0x02` clear reads a u32
(widened to u64), set reads a u64. -/
def read_pkt_or_byt (flags : Nat) (cur : List Nat) : Option (Nat × List Nat) :=
  if flags &&& 0x02 = 0 then readLE 4 cur else readLE 8 cur

/-- record.rs `read_ext`: a u16-derived value when `ext` is in the active
extension-id list, a u32 when `ext+1` is, otherwise an `Err` without
touching the cursor. -/
def read_ext (cur : List Nat) (emap : List Nat) (ext : Nat) :
    Option (Nat × List Nat) :=
  if emap.contains ext then readLE 2 cur
  else if emap.contains (ext + 1) then readLE 4 cur
  else none

/-- `read_ext(..).ok()` as used in `new_record`: an `Err` (missing id, or
short cursor — a failed `Cursor::read_exact` does not advance the
position) becomes `none` and the cursor is left as it was. -/
def read_ext_opt (cur : List Nat) (emap : List Nat) (ext : Nat) :
    Option Nat × List Nat :=
  match read_ext cur emap ext with
  | some (v, r) => (some v, r)
  | none => (none, cur)

/-- record.rs `new_record` (lines 35–70): the fixed field prefix, two
addresses gated by flags bit `0x01`, the packet and byte counters both
read through `read_pkt_or_byt` with the same flags, and the four optional
fields `input`/`output` (governed by extension ids 4/5) and
`src_as`/`dst_as` (governed by 6/7) read through `read_ext(..).ok()`. -/
def new_record (header : NfFileRecordHeader) (data : List Nat)
    (ext : List Nat) : Option Record :=
  match readLE 2 data with
  | none => none
  | some (flags, c) =>
  match readLE 2 c with
  | none => none
  | some (ext_map, c) =>
  match readLE 2 c with
  | none => none
  | some (msec_first, c) =>
  match readLE 2 c with
  | none => none
  | some (msec_last, c) =>
  match readLE 4 c with
  | none => none
  | some (first, c) =>
  match readLE 4 c with
  | none => none
  | some (last, c) =>
  match readU8 c with
  | none => none
  | some (fwd_status, c) =>
  match readU8 c with
  | none => none
  | some (tcp_flags, c) =>
  match readU8 c with
  | none => none
  | some (prot, c) =>
  match readU8 c with
  | none => none
  | some (tos, c) =>
  match readLE 2 c with
  | none => none
  | some (src_port, c) =>
  match readLE 2 c with
  | none => none
  | some (dst_port, c) =>
  match readLE 2 c with
  | none => none
  | some (exporter_sysid, c) =>
  match readU8 c with
  | none => none
  | some (bi_flow_dir, c) =>
  match readU8 c with
  | none => none
  | some (flow_end_reason, c) =>
  match read_addr flags c with
  | none => none
  | some (src_addr, c) =>
  match read_addr flags c with
  | none => none
  | some (dst_addr, c) =>
  match read_pkt_or_byt flags c with
  | none => none
  | some (packets, c) =>
  match read_pkt_or_byt flags c with
  | none => none
  | some (bytes, c) =>
  let (input, c1) := read_ext_opt c ext 4
  let (output, c2) := read_ext_opt c1 ext 4
  let (src_as, c3) := read_ext_opt c2 ext 6
  let (dst_as, _) := read_ext_opt c3 ext 6
  some { head := header, flags, ext_map, msec_first, msec_last, first,
         last, fwd_status, tcp_flags, prot, tos, src_port, dst_port,
         exporter_sysid, bi_flow_dir, flow_end_reason, src_addr, dst_addr,
         packets, bytes, input, output, src_as, dst_as }

/-- The number of bytes `read_ext` consumes for governing id `e` under the
extension list `emap`. -/
def extWidth (emap : List Nat) (e : Nat) : Nat :=
  if emap.contains e then 2 else if emap.contains (e + 1) then 4 else 0

/-- The value `read_ext(..).ok()` produces for governing id `e` from the
chunk `q`. -/
def extValue (emap : List Nat) (e : Nat) (q : List Nat) : Option Nat :=
  if emap.contains e then some (leVal q 2)
  else if emap.contains (e + 1) then some (leVal q 4)
  else none

theorem read_addr_chunk (flags : Nat) (A rest : List Nat)
    (h : A.length = if flags &&& 1 = 0 then 4 else 16) :
    read_addr flags (A ++ rest) =
      some ((if flags &&& 1 = 0 then IpAddr.v4 (leVal A 4)
        else IpAddr.v6 (leVal A 16)), rest) := by
  by_cases hf : flags &&& 1 = 0
  · rw [if_pos hf] at h
    unfold read_addr
    rw [if_pos hf, readLE_chunk 4 A rest h, if_pos hf]
  · rw [if_neg hf] at h
    unfold read_addr
    rw [if_neg hf, readLE_chunk 16 A rest h, if_neg hf]

theorem read_pkt_or_byt_chunk (flags : Nat) (P rest : List Nat)
    (h : P.length = if flags &&& 2 = 0 then 4 else 8) :
    read_pkt_or_byt flags (P ++ rest) =
      some (leVal P (if flags &&& 2 = 0 then 4 else 8), rest) := by
  by_cases hf : flags &&& 2 = 0
  · rw [if_pos hf] at h
    unfold read_pkt_or_byt
    rw [if_pos hf, readLE_chunk 4 P rest h, if_pos hf]
  · rw [if_neg hf] at h
    unfold read_pkt_or_byt
    rw [if_neg hf, readLE_chunk 8 P rest h, if_neg hf]

theorem read_ext_opt_chunk (emap : List Nat) (e : Nat) (q rest : List Nat)
    (h : q.length = extWidth emap e) :
    read_ext_opt (q ++ rest) emap e = (extValue emap e q, rest) := by
  by_cases h1 : emap.contains e
  · unfold extWidth at h
    rw [if_pos h1] at h
    unfold read_ext_opt read_ext extValue
    rw [if_pos h1, if_pos h1, readLE_chunk 2 q rest h]
  · by_cases h2 : emap.contains (e + 1)
    · unfold extWidth at h
      rw [if_neg h1, if_pos h2] at h
      unfold read_ext_opt read_ext extValue
      rw [if_neg h1, if_neg h1, if_pos h2, if_pos h2,
        readLE_chunk 4 q rest h]
    · unfold extWidth at h
      rw [if_neg h1, if_neg h2] at h
      have hq : q = [] := List.eq_nil_of_length_eq_zero h
      subst hq
      unfold read_ext_opt read_ext extValue
      rw [if_neg h1, if_neg h1, if_neg h2, if_neg h2]
      rfl

/-- Full layout of a successful `new_record` decode over exactly-sized
chunks: shared by the claims about the legacy Common Record. -/
theorem new_record_chunks (hd : NfFileRecordHeader) (emap : List Nat)
    (cfl cem cmf cml cfi cla cfw ctf cpr cto csp cdp ces cbf cfe A B P Bt
      q1 q2 q3 q4 rest : List Nat)
    (hfl : cfl.length = 2) (hem : cem.length = 2) (hmf : cmf.length = 2)
    (hml : cml.length = 2) (hfi : cfi.length = 4) (hla : cla.length = 4)
    (hfw : cfw.length = 1) (htf : ctf.length = 1) (hpr : cpr.length = 1)
    (hto : cto.length = 1) (hsp : csp.length = 2) (hdp : cdp.length = 2)
    (hes : ces.length = 2) (hbf : cbf.length = 1) (hfe : cfe.length = 1)
    (hA : A.length = if leVal cfl 2 &&& 1 = 0 then 4 else 16)
    (hB : B.length = if leVal cfl 2 &&& 1 = 0 then 4 else 16)
    (hP : P.length = if leVal cfl 2 &&& 2 = 0 then 4 else 8)
    (hBt : Bt.length = if leVal cfl 2 &&& 2 = 0 then 4 else 8)
    (hq1 : q1.length = extWidth emap 4) (hq2 : q2.length = extWidth emap 4)
    (hq3 : q3.length = extWidth emap 6)
    (hq4 : q4.length = extWidth emap 6) :
    new_record hd
      (cfl ++ (cem ++ (cmf ++ (cml ++ (cfi ++ (cla ++ (cfw ++ (ctf ++
        (cpr ++ (cto ++ (csp ++ (cdp ++ (ces ++ (cbf ++ (cfe ++ (A ++
          (B ++ (P ++ (Bt ++ (q1 ++ (q2 ++ (q3 ++ (q4 ++
            rest))))))))))))))))))))))) emap =
      some { head := hd, flags := leVal cfl 2, ext_map := leVal cem 2,
             msec_first := leVal cmf 2, msec_last := leVal cml 2,
             first := leVal cfi 4, last := leVal cla 4,
             fwd_status := leVal cfw 1, tcp_flags := leVal ctf 1,
             prot := leVal cpr 1, tos := leVal cto 1,
             src_port := leVal csp 2, dst_port := leVal cdp 2,
             exporter_sysid := leVal ces 2, bi_flow_dir := leVal cbf 1,
             flow_end_reason := leVal cfe 1,
             src_addr := if leVal cfl 2 &&& 1 = 0 then .v4 (leVal A 4)
               else .v6 (leVal A 16),
             dst_addr := if leVal cfl 2 &&& 1 = 0 then .v4 (leVal B 4)
               else .v6 (leVal B 16),
             packets := leVal P (if leVal cfl 2 &&& 2 = 0 then 4 else 8),
             bytes := leVal Bt (if leVal cfl 2 &&& 2 = 0 then 4 else 8),
             input := extValue emap 4 q1, output := extValue emap 4 q2,
             src_as := extValue emap 6 q3,
             dst_as := extValue emap 6 q4 } := by
  simp only [new_record,
    readLE_chunk 2 cfl _ hfl, readLE_chunk 2 cem _ hem,
    readLE_chunk 2 cmf _ hmf, readLE_chunk 2 cml _ hml,
    readLE_chunk 4 cfi _ hfi, readLE_chunk 4 cla _ hla,
    readU8_chunk cfw _ hfw, readU8_chunk ctf _ htf,
    readU8_chunk cpr _ hpr, readU8_chunk cto _ hto,
    readLE_chunk 2 csp _ hsp, readLE_chunk 2 cdp _ hdp,
    readLE_chunk 2 ces _ hes, readU8_chunk cbf _ hbf,
    readU8_chunk cfe _ hfe, read_addr_chunk _ A _ hA,
    read_addr_chunk _ B _ hB, read_pkt_or_byt_chunk _ P _ hP,
    read_pkt_or_byt_chunk _ Bt _ hBt,
    read_ext_opt_chunk emap 4 q1 _ hq1, read_ext_opt_chunk emap 4 q2 _ hq2,
    read_ext_opt_chunk emap 6 q3 _ hq3, read_ext_opt_chunk emap 6 q4 _ hq4]

/-- C3: in a legacy Common Record the single flag bit `0x02` gates the
width of both the packet counter and the byte counter: bit clear, each is
read as a u32 (4-byte chunks `P` and `Bt`); bit set, each is read as a
u64 (8-byte chunks). -/
theorem C3_flag_bit_gates_both_counters (hd : NfFileRecordHeader)
    (emap : List Nat)
    (cfl cem cmf cml cfi cla cfw ctf cpr cto csp cdp ces cbf cfe A B P Bt
      q1 q2 q3 q4 rest : List Nat)
    (hfl : cfl.length = 2) (hem : cem.length = 2) (hmf : cmf.length = 2)
    (hml : cml.length = 2) (hfi : cfi.length = 4) (hla : cla.length = 4)
    (hfw : cfw.length = 1) (htf : ctf.length = 1) (hpr : cpr.length = 1)
    (hto : cto.length = 1) (hsp : csp.length = 2) (hdp : cdp.length = 2)
    (hes : ces.length = 2) (hbf : cbf.length = 1) (hfe : cfe.length = 1)
    (hA : A.length = if leVal cfl 2 &&& 1 = 0 then 4 else 16)
    (hB : B.length = if leVal cfl 2 &&& 1 = 0 then 4 else 16)
    (hP : P.length = if leVal cfl 2 &&& 2 = 0 then 4 else 8)
    (hBt : Bt.length = if leVal cfl 2 &&& 2 = 0 then 4 else 8)
    (hq1 : q1.length = extWidth emap 4) (hq2 : q2.length = extWidth emap 4)
    (hq3 : q3.length = extWidth emap 6)
    (hq4 : q4.length = extWidth emap 6) :
    ∃ r, new_record hd
        (cfl ++ (cem ++ (cmf ++ (cml ++ (cfi ++ (cla ++ (cfw ++ (ctf ++
          (cpr ++ (cto ++ (csp ++ (cdp ++ (ces ++ (cbf ++ (cfe ++ (A ++
            (B ++ (P ++ (Bt ++ (q1 ++ (q2 ++ (q3 ++ (q4 ++
              rest))))))))))))))))))))))) emap = some r ∧
      r.packets = leVal P (if leVal cfl 2 &&& 2 = 0 then 4 else 8) ∧
      r.bytes = leVal Bt (if leVal cfl 2 &&& 2 = 0 then 4 else 8) :=
  ⟨_, new_record_chunks hd emap cfl cem cmf cml cfi cla cfw ctf cpr cto
      csp cdp ces cbf cfe A B P Bt q1 q2 q3 q4 rest hfl hem hmf hml hfi
      hla hfw htf hpr hto hsp hdp hes hbf hfe hA hB hP hBt hq1 hq2 hq3
      hq4, rfl, rfl⟩

theorem C3_witness :
    ∃ r, new_record ⟨0xa, 64⟩
        ([2, 0] ++ ([0, 0] ++ ([0, 0] ++ ([0, 0] ++ ([0, 0, 0, 0] ++
          ([0, 0, 0, 0] ++ ([0] ++ ([0] ++ ([0] ++ ([0] ++ ([0, 0] ++
          ([0, 0] ++ ([0, 0] ++ ([0] ++ ([0] ++ ([1, 2, 3, 4] ++
          ([5, 6, 7, 8] ++ ([9, 0, 0, 0, 0, 0, 0, 0] ++
          ([7, 0, 0, 0, 0, 0, 0, 0] ++ ([] ++ ([] ++ ([] ++ ([] ++
          ([])))))))))))))))))))))))) [] = some r ∧
      r.packets =
        leVal [9, 0, 0, 0, 0, 0, 0, 0]
          (if leVal [2, 0] 2 &&& 2 = 0 then 4 else 8) ∧
      r.bytes =
        leVal [7, 0, 0, 0, 0, 0, 0, 0]
          (if leVal [2, 0] 2 &&& 2 = 0 then 4 else 8) :=
  C3_flag_bit_gates_both_counters ⟨0xa, 64⟩ [] [2, 0] [0, 0] [0, 0] [0, 0]
    [0, 0, 0, 0] [0, 0, 0, 0] [0] [0] [0] [0] [0, 0] [0, 0] [0, 0] [0] [0]
    [1, 2, 3, 4] [5, 6, 7, 8] [9, 0, 0, 0, 0, 0, 0, 0]
    [7, 0, 0, 0, 0, 0, 0, 0] [] [] [] [] [] rfl rfl rfl rfl rfl rfl rfl
    rfl rfl rfl rfl rfl rfl rfl rfl rfl rfl rfl rfl rfl rfl rfl rfl

/-- C4: in a legacy Common Record decoded against the active extension-id
list `emap`, `input`/`output` are present and 16-bit-derived when id 4 is
active, present and 32-bit-derived when id 5 is active (and 4 is not),
and `none` otherwise; `src_as`/`dst_as` behave the same with ids 6 and 7.
In every case the record itself still decodes (`some r`): an absent
governing id never fails the whole record. -/
theorem C4_extension_gated_fields (hd : NfFileRecordHeader)
    (emap : List Nat)
    (cfl cem cmf cml cfi cla cfw ctf cpr cto csp cdp ces cbf cfe A B P Bt
      q1 q2 q3 q4 rest : List Nat)
    (hfl : cfl.length = 2) (hem : cem.length = 2) (hmf : cmf.length = 2)
    (hml : cml.length = 2) (hfi : cfi.length = 4) (hla : cla.length = 4)
    (hfw : cfw.length = 1) (htf : ctf.length = 1) (hpr : cpr.length = 1)
    (hto : cto.length = 1) (hsp : csp.length = 2) (hdp : cdp.length = 2)
    (hes : ces.length = 2) (hbf : cbf.length = 1) (hfe : cfe.length = 1)
    (hA : A.length = if leVal cfl 2 &&& 1 = 0 then 4 else 16)
    (hB : B.length = if leVal cfl 2 &&& 1 = 0 then 4 else 16)
    (hP : P.length = if leVal cfl 2 &&& 2 = 0 then 4 else 8)
    (hBt : Bt.length = if leVal cfl 2 &&& 2 = 0 then 4 else 8)
    (hq1 : q1.length = extWidth emap 4) (hq2 : q2.length = extWidth emap 4)
    (hq3 : q3.length = extWidth emap 6)
    (hq4 : q4.length = extWidth emap 6) :
    ∃ r, new_record hd
        (cfl ++ (cem ++ (cmf ++ (cml ++ (cfi ++ (cla ++ (cfw ++ (ctf ++
          (cpr ++ (cto ++ (csp ++ (cdp ++ (ces ++ (cbf ++ (cfe ++ (A ++
            (B ++ (P ++ (Bt ++ (q1 ++ (q2 ++ (q3 ++ (q4 ++
              rest))))))))))))))))))))))) emap = some r ∧
      r.input = (if emap.contains 4 then some (leVal q1 2)
        else if emap.contains 5 then some (leVal q1 4) else none) ∧
      r.output = (if emap.contains 4 then some (leVal q2 2)
        else if emap.contains 5 then some (leVal q2 4) else none) ∧
      r.src_as = (if emap.contains 6 then some (leVal q3 2)
        else if emap.contains 7 then some (leVal q3 4) else none) ∧
      r.dst_as = (if emap.contains 6 then some (leVal q4 2)
        else if emap.contains 7 then some (leVal q4 4) else none) :=
  ⟨_, new_record_chunks hd emap cfl cem cmf cml cfi cla cfw ctf cpr cto
      csp cdp ces cbf cfe A B P Bt q1 q2 q3 q4 rest hfl hem hmf hml hfi
      hla hfw htf hpr hto hsp hdp hes hbf hfe hA hB hP hBt hq1 hq2 hq3
      hq4, rfl, rfl, rfl, rfl⟩

theorem C4_witness :
    (∃ r, new_record ⟨0xa, 48⟩
        ([0, 0] ++ ([0, 0] ++ ([0, 0] ++ ([0, 0] ++ ([0, 0, 0, 0] ++
          ([0, 0, 0, 0] ++ ([0] ++ ([0] ++ ([0] ++ ([0] ++ ([0, 0] ++
          ([0, 0] ++ ([0, 0] ++ ([0] ++ ([0] ++ ([1, 2, 3, 4] ++
          ([5, 6, 7, 8] ++ ([3, 0, 0, 0] ++ ([4, 0, 0, 0] ++ ([5, 0] ++
          ([6, 0] ++ ([9, 0, 0, 0] ++ ([8, 0, 0, 0] ++
          ([])))))))))))))))))))))))) [4, 7] = some r ∧
      r.input = (if [4, 7].contains 4 then some (leVal [5, 0] 2)
        else if [4, 7].contains 5 then some (leVal [5, 0] 4) else none) ∧
      r.output = (if [4, 7].contains 4 then some (leVal [6, 0] 2)
        else if [4, 7].contains 5 then some (leVal [6, 0] 4) else none) ∧
      r.src_as = (if [4, 7].contains 6 then some (leVal [9, 0, 0, 0] 2)
        else if [4, 7].contains 7 then some (leVal [9, 0, 0, 0] 4)
        else none) ∧
      r.dst_as = (if [4, 7].contains 6 then some (leVal [8, 0, 0, 0] 2)
        else if [4, 7].contains 7 then some (leVal [8, 0, 0, 0] 4)
        else none)) ∧
    (∃ r, new_record ⟨0xa, 40⟩
        ([0, 0] ++ ([0, 0] ++ ([0, 0] ++ ([0, 0] ++ ([0, 0, 0, 0] ++
          ([0, 0, 0, 0] ++ ([0] ++ ([0] ++ ([0] ++ ([0] ++ ([0, 0] ++
          ([0, 0] ++ ([0, 0] ++ ([0] ++ ([0] ++ ([1, 2, 3, 4] ++
          ([5, 6, 7, 8] ++ ([3, 0, 0, 0] ++ ([4, 0, 0, 0] ++ ([] ++
          ([] ++ ([] ++ ([] ++ ([])))))))))))))))))))))))) [] = some r ∧
      r.input = none ∧ r.output = none ∧ r.src_as = none ∧
      r.dst_as = none) := by
  constructor
  · exact C4_extension_gated_fields ⟨0xa, 48⟩ [4, 7] [0, 0] [0, 0] [0, 0]
      [0, 0] [0, 0, 0, 0] [0, 0, 0, 0] [0] [0] [0] [0] [0, 0] [0, 0]
      [0, 0] [0] [0] [1, 2, 3, 4] [5, 6, 7, 8] [3, 0, 0, 0] [4, 0, 0, 0]
      [5, 0] [6, 0] [9, 0, 0, 0] [8, 0, 0, 0] [] rfl rfl rfl rfl rfl rfl
      rfl rfl rfl rfl rfl rfl rfl rfl rfl rfl rfl rfl rfl rfl rfl rfl rfl
  · obtain ⟨r, hr, hin, hout, hsrc, hdst⟩ :=
      C4_extension_gated_fields ⟨0xa, 40⟩ [] [0, 0] [0, 0] [0, 0] [0, 0]
        [0, 0, 0, 0] [0, 0, 0, 0] [0] [0] [0] [0] [0, 0] [0, 0] [0, 0]
        [0] [0] [1, 2, 3, 4] [5, 6, 7, 8] [3, 0, 0, 0] [4, 0, 0, 0] [] []
        [] [] [] rfl rfl rfl rfl rfl rfl rfl rfl rfl rfl rfl rfl rfl rfl
        rfl rfl rfl rfl rfl rfl rfl rfl rfl
    exact ⟨r, hr, hin, hout, hsrc, hdst⟩

/-! ## RecordV3 decoder (`src/nfx_v3.rs`)

The sub-extension id constants, the typed sub-structures, and the decode
loop of `RecordV3::new`.  The per-id parsing that the source inlines in
the `match` arms is split into one parse function per arm (each function
is exactly the reads of the corresponding struct literal); the arm itself
becomes `(parse ext_data).map (set the field)`.  IP addresses and MAC
addresses are kept numeric. -/

def EXT_NULL : Nat := 0x0

def EXT_GENERIC_FLOW : Nat := 0x1

def EXT_IPV4_FLOW : Nat := 0x2

def EXT_IPV6_FLOW : Nat := 0x3

def EXT_FLOW_MISC : Nat := 0x4

def EXT_CNT_FLOW : Nat := 0x5

def EXT_VLAN_FLOW : Nat := 0x6

def EXT_AS_ROUTING : Nat := 0x7

def EXT_BGP_NEXT_HOP_V4 : Nat := 0x8

def EXT_BGP_NEXT_HOP_V6 : Nat := 0x9

def EXT_IP_NEXT_HOP_V4 : Nat := 0xa

def EXT_IP_NEXT_HOP_V6 : Nat := 0xb

def EXT_IP_RECEIVED_V4 : Nat := 0xc

def EXT_IP_RECEIVED_V6 : Nat := 0xd

def EXT_SAMPLER_INFO : Nat := 0x12

def EXT_IN_PAYLOAD : Nat := 0x1d

def EXT_NSEL_X_LATE_PORT : Nat := 0x16

def EXT_MAC_ADDR : Nat := 0xf

def EXT_LAYER2 : Nat := 0x26

def EXT_MPLS : Nat := 0xe

def EXT_TUN_V4 : Nat := 0x1f

def EXT_TUN_V6 : Nat := 0x20

/-- `eui48::MacAddress`: six bytes. -/
structure MacAddress where
  bytes : List Nat
deriving DecidableEq, Repr

/-- nfx_v3.rs `_mac_from_u64`. -/
def _mac_from_u64 (value : Nat) : MacAddress :=
  ⟨[value >>> 40 &&& 0xFF, value >>> 32 &&& 0xFF, value >>> 24 &&& 0xFF,
    value >>> 16 &&& 0xFF, value >>> 8 &&& 0xFF, value &&& 0xFF]⟩

structure RecordHeaderV3 where
  header : NfFileRecordHeader
  num_elements : Nat
  engine_type : Nat
  engine_id : Nat
  exporter_id : Nat
  flags : Nat
  nf_version : Nat
deriving DecidableEq, Repr

structure ExGenericFlow where
  msec_first : Nat
  msec_last : Nat
  msec_received : Nat
  in_packets : Nat
  in_bytes : Nat
  src_port : Nat
  dst_port : Nat
  proto : Nat
  tcp_flags : Nat
  fwd_status : Nat
  src_tos : Nat
deriving Repr

structure ExIpv4Flow where
  src_addr : Nat
  dst_addr : Nat
deriving DecidableEq, Repr

structure ExIpv6Flow where
  src_addr : Nat
  dst_addr : Nat
deriving DecidableEq, Repr

structure ExFlowMisc where
  input : Nat
  output : Nat
  src_mask : Nat
  dst_mask : Nat
  dir : Nat
  dst_tos : Nat
  bi_flow_dir : Nat
  flow_end_reason : Nat
  rev_tcp_flags : Nat
  fill : Nat
deriving Repr

structure ExCntFlow where
  flows : Nat
  out_packets : Nat
  out_bytes : Nat
deriving DecidableEq, Repr

structure ExVlan where
  src_vlan : Nat
  dst_vlan : Nat
deriving DecidableEq, Repr

structure ExAsRouting where
  src_as : Nat
  dst_as : Nat
deriving DecidableEq, Repr

structure ExSamplerInfo where
  selector_id : Nat
  sysid : Nat
  align : Nat
deriving DecidableEq, Repr

structure ExNselXLatePort where
  src_port : Nat
  dst_port : Nat
deriving DecidableEq, Repr

structure ExBgpNextHopIpv4 where
  ip : Nat
deriving DecidableEq, Repr

structure ExBgpNextHopIpv6 where
  ip : Nat
deriving DecidableEq, Repr

structure ExIpNextHopIpv4 where
  ip : Nat
deriving DecidableEq, Repr

structure ExIpNextHopIpv6 where
  ip : Nat
deriving DecidableEq, Repr

structure ExIpReceivedIpv4 where
  ip : Nat
deriving DecidableEq, Repr

structure ExIpReceivedIpv6 where
  ip : Nat
deriving DecidableEq, Repr

/-- nfx_v3.rs `type ExInPayload = Vec<u8>`. -/
def ExInPayload : Type := List Nat

structure ExMacAddress where
  in_src_mac : MacAddress
  out_dst_mac : MacAddress
  in_dst_mac : MacAddress
  out_src_mac : MacAddress
deriving DecidableEq, Repr

structure ExLayer2 where
  vlan_id : Nat
  customer_vlan_id : Nat
  post_vlan_id : Nat
  post_customer_vlan_id : Nat
  ingress : Nat
  egress : Nat
  vx_lan : Nat
  ether_type : Nat
  ip_version : Nat
  fill : Nat
deriving Repr

structure ExMPLS where
  mpls_label_1 : Nat
  mpls_label_2 : Nat
  mpls_label_3 : Nat
  mpls_label_4 : Nat
  mpls_label_5 : Nat
  mpls_label_6 : Nat
  mpls_label_7 : Nat
  mpls_label_8 : Nat
  mpls_label_9 : Nat
  mpls_label_10 : Nat
deriving Repr

structure ExTunIpv4 where
  src_addr : Nat
  dst_addr : Nat
  proto : Nat
deriving DecidableEq, Repr

structure ExTunIpv6 where
  src_addr : Nat
  dst_addr : Nat
  proto : Nat
deriving DecidableEq, Repr

/-- nfx_v3.rs `RecordV3`: the header plus 21 independently-optional typed
sub-structures (the source has no fields for the unhandled
`EXT_NSEL_X_LATE_IPV4/IPV6` ids). -/
structure RecordV3 where
  head : RecordHeaderV3
  generic_flow : Option ExGenericFlow
  ipv4_flow : Option ExIpv4Flow
  ipv6_flow : Option ExIpv6Flow
  flow_misc : Option ExFlowMisc
  cnt_flow : Option ExCntFlow
  vlan : Option ExVlan
  as_routing : Option ExAsRouting
  sampler_info : Option ExSamplerInfo
  nsel_xlate_port : Option ExNselXLatePort
  bgp_next_hop_ipv4 : Option ExBgpNextHopIpv4
  bgp_next_hop_ipv6 : Option ExBgpNextHopIpv6
  ip_next_hop_ipv4 : Option ExIpNextHopIpv4
  ip_next_hop_ipv6 : Option ExIpNextHopIpv6
  ip_received_ipv4 : Option ExIpReceivedIpv4
  ip_received_ipv6 : Option ExIpReceivedIpv6
  in_payload : Option (List Nat)
  mac_address : Option ExMacAddress
  layer2 : Option ExLayer2
  mpls : Option ExMPLS
  tun_ipv4 : Option ExTunIpv4
  tun_ipv6 : Option ExTunIpv6
deriving Repr

/-- The all-`none` record the source constructs before the element loop
(nfx_v3.rs lines 256–279). -/
def initRecordV3 (head : RecordHeaderV3) : RecordV3 :=
  { head := head, generic_flow := none, ipv4_flow := none,
    ipv6_flow := none, flow_misc := none, cnt_flow := none, vlan := none,
    as_routing := none, sampler_info := none, nsel_xlate_port := none,
    bgp_next_hop_ipv4 := none, bgp_next_hop_ipv6 := none,
    ip_next_hop_ipv4 := none, ip_next_hop_ipv6 := none,
    ip_received_ipv4 := none, ip_received_ipv6 := none, in_payload := none,
    mac_address := none, layer2 := none, mpls := none, tun_ipv4 := none,
    tun_ipv6 := none }

def parseExGenericFlow (d : List Nat) : Option ExGenericFlow :=
  match readLE 8 d with
  | none => none
  | some (msec_first, c) =>
  match readLE 8 c with
  | none => none
  | some (msec_last, c) =>
  match readLE 8 c with
  | none => none
  | some (msec_received, c) =>
  match readLE 8 c with
  | none => none
  | some (in_packets, c) =>
  match readLE 8 c with
  | none => none
  | some (in_bytes, c) =>
  match readLE 2 c with
  | none => none
  | some (src_port, c) =>
  match readLE 2 c with
  | none => none
  | some (dst_port, c) =>
  match readU8 c with
  | none => none
  | some (proto, c) =>
  match readU8 c with
  | none => none
  | some (tcp_flags, c) =>
  match readU8 c with
  | none => none
  | some (fwd_status, c) =>
  match readU8 c with
  | none => none
  | some (src_tos, _) =>
  some { msec_first, msec_last, msec_received, in_packets, in_bytes,
         src_port, dst_port, proto, tcp_flags, fwd_status, src_tos }

def parseExIpv4Flow (d : List Nat) : Option ExIpv4Flow :=
  match readLE 4 d with
  | none => none
  | some (src_addr, c) =>
  match readLE 4 c with
  | none => none
  | some (dst_addr, _) => some { src_addr, dst_addr }

def parseExIpv6Flow (d : List Nat) : Option ExIpv6Flow :=
  match readLE 16 d with
  | none => none
  | some (src_addr, c) =>
  match readLE 16 c with
  | none => none
  | some (dst_addr, _) => some { src_addr, dst_addr }

def parseExFlowMisc (d : List Nat) : Option ExFlowMisc :=
  match readLE 4 d with
  | none => none
  | some (input, c) =>
  match readLE 4 c with
  | none => none
  | some (output, c) =>
  match readU8 c with
  | none => none
  | some (src_mask, c) =>
  match readU8 c with
  | none => none
  | some (dst_mask, c) =>
  match readU8 c with
  | none => none
  | some (dir, c) =>
  match readU8 c with
  | none => none
  | some (dst_tos, c) =>
  match readU8 c with
  | none => none
  | some (bi_flow_dir, c) =>
  match readU8 c with
  | none => none
  | some (flow_end_reason, c) =>
  match readU8 c with
  | none => none
  | some (rev_tcp_flags, c) =>
  match readU8 c with
  | none => none
  | some (fill, _) =>
  some { input, output, src_mask, dst_mask, dir, dst_tos, bi_flow_dir,
         flow_end_reason, rev_tcp_flags, fill }

def parseExCntFlow (d : List Nat) : Option ExCntFlow :=
  match readLE 8 d with
  | none => none
  | some (flows, c) =>
  match readLE 8 c with
  | none => none
  | some (out_packets, c) =>
  match readLE 8 c with
  | none => none
  | some (out_bytes, _) => some { flows, out_packets, out_bytes }

def parseExVlan (d : List Nat) : Option ExVlan :=
  match readLE 4 d with
  | none => none
  | some (src_vlan, c) =>
  match readLE 4 c with
  | none => none
  | some (dst_vlan, _) => some { src_vlan, dst_vlan }

def parseExAsRouting (d : List Nat) : Option ExAsRouting :=
  match readLE 4 d with
  | none => none
  | some (src_as, c) =>
  match readLE 4 c with
  | none => none
  | some (dst_as, _) => some { src_as, dst_as }

def parseExSamplerInfo (d : List Nat) : Option ExSamplerInfo :=
  match readLE 8 d with
  | none => none
  | some (selector_id, c) =>
  match readLE 2 c with
  | none => none
  | some (sysid, c) =>
  match readLE 2 c with
  | none => none
  | some (align, _) => some { selector_id, sysid, align }

def parseExNselXLatePort (d : List Nat) : Option ExNselXLatePort :=
  match readLE 2 d with
  | none => none
  | some (src_port, c) =>
  match readLE 2 c with
  | none => none
  | some (dst_port, _) => some { src_port, dst_port }

def parseExBgpNextHopIpv4 (d : List Nat) : Option ExBgpNextHopIpv4 :=
  match readLE 4 d with
  | none => none
  | some (ip, _) => some { ip }

def parseExBgpNextHopIpv6 (d : List Nat) : Option ExBgpNextHopIpv6 :=
  match readLE 16 d with
  | none => none
  | some (ip, _) => some { ip }

def parseExIpNextHopIpv4 (d : List Nat) : Option ExIpNextHopIpv4 :=
  match readLE 4 d with
  | none => none
  | some (ip, _) => some { ip }

def parseExIpNextHopIpv6 (d : List Nat) : Option ExIpNextHopIpv6 :=
  match readLE 16 d with
  | none => none
  | some (ip, _) => some { ip }

def parseExIpReceivedIpv4 (d : List Nat) : Option ExIpReceivedIpv4 :=
  match readLE 4 d with
  | none => none
  | some (ip, _) => some { ip }

def parseExIpReceivedIpv6 (d : List Nat) : Option ExIpReceivedIpv6 :=
  match readLE 16 d with
  | none => none
  | some (ip, _) => some { ip }

/-- `isize::MAX`: `Vec` allocations beyond it panic with a capacity
overflow. -/
def ISIZE_MAX : Nat := 2 ^ 63 - 1

/-- The `EXT_IN_PAYLOAD` arm: `vec![0; record.head.header.size - 4]` — the
record-level size, a source quirk — then `read_exact` from the
sub-extension cursor.  The wrapping usize subtraction and the consequent
failing allocation for `size < 4` are folded into `none` together with
the ordinary read failure (this arm's abnormal outcomes are not
distinguished by any claim). -/
def parseInPayload (recordSize : Nat) (d : List Nat) :
    Option (List Nat) :=
  let n := (recordSize + 2 ^ 64 - 4) % 2 ^ 64
  if ISIZE_MAX < n then none
  else
    match readExact n d with
    | none => none
    | some (payload, _) => some payload

def parseExMacAddress (d : List Nat) : Option ExMacAddress :=
  match readLE 8 d with
  | none => none
  | some (a, c) =>
  match readLE 8 c with
  | none => none
  | some (b, c) =>
  match readLE 8 c with
  | none => none
  | some (e, c) =>
  match readLE 8 c with
  | none => none
  | some (f, _) =>
  some { in_src_mac := _mac_from_u64 a, out_dst_mac := _mac_from_u64 b,
         in_dst_mac := _mac_from_u64 e, out_src_mac := _mac_from_u64 f }

def parseExLayer2 (d : List Nat) : Option ExLayer2 :=
  match readLE 2 d with
  | none => none
  | some (vlan_id, c) =>
  match readLE 2 c with
  | none => none
  | some (customer_vlan_id, c) =>
  match readLE 2 c with
  | none => none
  | some (post_vlan_id, c) =>
  match readLE 2 c with
  | none => none
  | some (post_customer_vlan_id, c) =>
  match readLE 4 c with
  | none => none
  | some (ingress, c) =>
  match readLE 4 c with
  | none => none
  | some (egress, c) =>
  match readLE 8 c with
  | none => none
  | some (vx_lan, c) =>
  match readLE 2 c with
  | none => none
  | some (ether_type, c) =>
  match readU8 c with
  | none => none
  | some (ip_version, c) =>
  match readU8 c with
  | none => none
  | some (fill, _) =>
  some { vlan_id, customer_vlan_id, post_vlan_id, post_customer_vlan_id,
         ingress, egress, vx_lan, ether_type, ip_version, fill }

def parseExMPLS (d : List Nat) : Option ExMPLS :=
  match readLE 4 d with
  | none => none
  | some (m1, c) =>
  match readLE 4 c with
  | none => none
  | some (m2, c) =>
  match readLE 4 c with
  | none => none
  | some (m3, c) =>
  match readLE 4 c with
  | none => none
  | some (m4, c) =>
  match readLE 4 c with
  | none => none
  | some (m5, c) =>
  match readLE 4 c with
  | none => none
  | some (m6, c) =>
  match readLE 4 c with
  | none => none
  | some (m7, c) =>
  match readLE 4 c with
  | none => none
  | some (m8, c) =>
  match readLE 4 c with
  | none => none
  | some (m9, c) =>
  match readLE 4 c with
  | none => none
  | some (m10, _) =>
  some { mpls_label_1 := m1, mpls_label_2 := m2, mpls_label_3 := m3,
         mpls_label_4 := m4, mpls_label_5 := m5, mpls_label_6 := m6,
         mpls_label_7 := m7, mpls_label_8 := m8, mpls_label_9 := m9,
         mpls_label_10 := m10 }

def parseExTunIpv4 (d : List Nat) : Option ExTunIpv4 :=
  match readLE 4 d with
  | none => none
  | some (src_addr, c) =>
  match readLE 4 c with
  | none => none
  | some (dst_addr, c) =>
  match readU8 c with
  | none => none
  | some (proto, _) => some { src_addr, dst_addr, proto }

def parseExTunIpv6 (d : List Nat) : Option ExTunIpv6 :=
  match readLE 16 d with
  | none => none
  | some (src_addr, c) =>
  match readLE 16 c with
  | none => none
  | some (dst_addr, c) =>
  match readU8 c with
  | none => none
  | some (proto, _) => some { src_addr, dst_addr, proto }

/-- The `match ext` of the `RecordV3::new` loop body (nfx_v3.rs lines
294–454): a recognized id parses its payload and overwrites the one field
it governs (`none` is the `?`-propagated parse failure that aborts the
whole record); every other id — including `EXT_NULL` and the unhandled
`EXT_NSEL_X_LATE_IPV4/IPV6` — falls through to `_ => {}`, leaving the
record untouched. -/
def applyV3Ext (r : RecordV3) (ext : Nat) (ext_data : List Nat) :
    Option RecordV3 :=
  match ext with
  -- EXT_GENERIC_FLOW
  | 0x1 =>
    (parseExGenericFlow ext_data).map fun v => { r with generic_flow := some v }
  -- EXT_IPV4_FLOW
  | 0x2 =>
    (parseExIpv4Flow ext_data).map fun v => { r with ipv4_flow := some v }
  -- EXT_IPV6_FLOW
  | 0x3 =>
    (parseExIpv6Flow ext_data).map fun v => { r with ipv6_flow := some v }
  -- EXT_FLOW_MISC
  | 0x4 =>
    (parseExFlowMisc ext_data).map fun v => { r with flow_misc := some v }
  -- EXT_CNT_FLOW
  | 0x5 =>
    (parseExCntFlow ext_data).map fun v => { r with cnt_flow := some v }
  -- EXT_VLAN_FLOW
  | 0x6 =>
    (parseExVlan ext_data).map fun v => { r with vlan := some v }
  -- EXT_AS_ROUTING
  | 0x7 =>
    (parseExAsRouting ext_data).map fun v => { r with as_routing := some v }
  -- EXT_SAMPLER_INFO
  | 0x12 =>
    (parseExSamplerInfo ext_data).map fun v => { r with sampler_info := some v }
  -- EXT_NSEL_X_LATE_PORT
  | 0x16 =>
    (parseExNselXLatePort ext_data).map fun v => { r with nsel_xlate_port := some v }
  -- EXT_BGP_NEXT_HOP_V4
  | 0x8 =>
    (parseExBgpNextHopIpv4 ext_data).map fun v => { r with bgp_next_hop_ipv4 := some v }
  -- EXT_BGP_NEXT_HOP_V6
  | 0x9 =>
    (parseExBgpNextHopIpv6 ext_data).map fun v => { r with bgp_next_hop_ipv6 := some v }
  -- EXT_IP_NEXT_HOP_V4
  | 0xa =>
    (parseExIpNextHopIpv4 ext_data).map fun v => { r with ip_next_hop_ipv4 := some v }
  -- EXT_IP_NEXT_HOP_V6
  | 0xb =>
    (parseExIpNextHopIpv6 ext_data).map fun v => { r with ip_next_hop_ipv6 := some v }
  -- EXT_IP_RECEIVED_V4
  | 0xc =>
    (parseExIpReceivedIpv4 ext_data).map fun v => { r with ip_received_ipv4 := some v }
  -- EXT_IP_RECEIVED_V6
  | 0xd =>
    (parseExIpReceivedIpv6 ext_data).map fun v => { r with ip_received_ipv6 := some v }
  -- EXT_IN_PAYLOAD
  | 0x1d =>
    (parseInPayload r.head.header.size ext_data).map fun v =>
      { r with in_payload := some v }
  -- EXT_MAC_ADDR
  | 0xf =>
    (parseExMacAddress ext_data).map fun v => { r with mac_address := some v }
  -- EXT_LAYER2
  | 0x26 =>
    (parseExLayer2 ext_data).map fun v => { r with layer2 := some v }
  -- EXT_MPLS
  | 0xe =>
    (parseExMPLS ext_data).map fun v => { r with mpls := some v }
  -- EXT_TUN_V4
  | 0x1f =>
    (parseExTunIpv4 ext_data).map fun v => { r with tun_ipv4 := some v }
  -- EXT_TUN_V6
  | 0x20 =>
    (parseExTunIpv6 ext_data).map fun v => { r with tun_ipv6 := some v }
  | _ => some r

/-- The 21 sub-extension ids the `match` of `RecordV3::new` recognizes, in
source order. -/
def knownExtIds : List Nat :=
  [0x1, 0x2, 0x3, 0x4, 0x5, 0x6, 0x7, 0x12, 0x16, 0x8, 0x9, 0xa, 0xb,
   0xc, 0xd, 0x1d, 0xf, 0x26, 0xe, 0x1f, 0x20]

/-- Abnormal outcomes of a decode step: `err` is a returned
`NfdumpError`, `panic` an aborted process (arithmetic underflow /
capacity overflow on `vec![0; size - 4]`). -/
inductive DecodeOutcome (α : Type) where
  | ok (val : α)
  | err
  | panic
deriving Repr

/-- One iteration of the `RecordV3::new` element loop (nfx_v3.rs lines
286–454): ext_id (u16), ext_size (u16), then `vec![0; size - 4]` — the
usize subtraction wraps, and for `size < 4` the wrapped length exceeds
`isize::MAX`, so the allocation panics — then `read_exact` of the payload
and the id dispatch. -/
def readV3Element (r : RecordV3) (cur : List Nat) :
    DecodeOutcome (RecordV3 × List Nat) :=
  match readLE 2 cur with
  | none => .err
  | some (ext, c1) =>
  match readLE 2 c1 with
  | none => .err
  | some (size, c2) =>
  if ISIZE_MAX < (size + 2 ^ 64 - 4) % 2 ^ 64 then .panic
  else
    match readExact ((size + 2 ^ 64 - 4) % 2 ^ 64) c2 with
    | none => .err
    | some (ext_data, c3) =>
    match applyV3Ext r ext ext_data with
    | none => .err
    | some r2 => .ok (r2, c3)

/-- `while cnt < record.head.num_elements`: exactly `num_elements`
iterations of the element loop, stopping early only on error/panic. -/
def readV3Elements : Nat → RecordV3 → List Nat →
    DecodeOutcome (RecordV3 × List Nat)
  | 0, r, cur => .ok (r, cur)
  | k + 1, r, cur =>
    match readV3Element r cur with
    | .ok (r2, c2) => readV3Elements k r2 c2
    | .err => .err
    | .panic => .panic

/-- nfx_v3.rs `RecordV3::new`: the 7-byte v3 header — num_elements (u16),
engine_type (u8), engine_id (u8), exporter_id (u16), flags (u8),
nf_version (u8) — then exactly `num_elements` sub-extensions. -/
def RecordV3.new (header : NfFileRecordHeader) (data : List Nat) :
    DecodeOutcome RecordV3 :=
  match readLE 2 data with
  | none => .err
  | some (num_elements, c) =>
  match readU8 c with
  | none => .err
  | some (engine_type, c) =>
  match readU8 c with
  | none => .err
  | some (engine_id, c) =>
  match readLE 2 c with
  | none => .err
  | some (exporter_id, c) =>
  match readU8 c with
  | none => .err
  | some (flags, c) =>
  match readU8 c with
  | none => .err
  | some (nf_version, c) =>
  match readV3Elements num_elements
      (initRecordV3 { header, num_elements, engine_type, engine_id,
                      exporter_id, flags, nf_version }) c with
  | .ok (r, _) => .ok r
  | .err => .err
  | .panic => .panic

/-- Reference framing of the spec's words: a sub-extension is ext_id (u16
little-endian), ext_size (u16, the payload length plus its own 4-byte
sub-header), then the payload. -/
def u16le (v : Nat) : List Nat := [v % 256, v / 256 % 256]

def encodeSubExt (eid : Nat) (p : List Nat) : List Nat :=
  u16le eid ++ (u16le (p.length + 4) ++ p)

def encodeSubExts : List (Nat × List Nat) → List Nat
  | [] => []
  | (e, p) :: fs => encodeSubExt e p ++ encodeSubExts fs

/-- The element loop as a fold over already-framed (id, payload) pairs. -/
def applyV3Exts : RecordV3 → List (Nat × List Nat) → Option RecordV3
  | r, [] => some r
  | r, (e, p) :: fs =>
    match applyV3Ext r e p with
    | none => none
    | some r2 => applyV3Exts r2 fs

theorem u16le_length (v : Nat) : (u16le v).length = 2 := rfl

theorem leVal_u16le (v : Nat) (h : v < 2 ^ 16) : leVal (u16le v) 2 = v := by
  simp only [u16le, leVal]
  omega

theorem leVal_lt : ∀ (c : List Nat) (n : Nat), leVal c n < 2 ^ (8 * n)
  | _, 0 => by simp [leVal]
  | [], n + 1 => by simp only [leVal]; positivity
  | b :: rest, n + 1 => by
    have ih := leVal_lt rest n
    have hb : b % 256 < 256 := Nat.mod_lt _ (by norm_num)
    have hpow : 2 ^ (8 * (n + 1)) = 256 * 2 ^ (8 * n) := by
      rw [Nat.mul_succ, pow_add]
      ring
    simp only [leVal, hpow]
    omega

theorem applyV3Ext_unknown (r : RecordV3) (e : Nat) (d : List Nat)
    (h : e ∉ knownExtIds) : applyV3Ext r e d = some r := by
  simp only [knownExtIds, List.mem_cons, List.not_mem_nil, or_false,
    not_or] at h
  unfold applyV3Ext
  split
  · omega
  · omega
  · omega
  · omega
  · omega
  · omega
  · omega
  · omega
  · omega
  · omega
  · omega
  · omega
  · omega
  · omega
  · omega
  · omega
  · omega
  · omega
  · omega
  · omega
  · omega
  · rfl

/-! Hand-written `rfl` unfolding lemmas (the automatically generated
equation lemmas for these definitions are prohibitively slow to
produce in this Lean version). -/

theorem applyV3Ext_arm1 (r : RecordV3) (d : List Nat) :
    applyV3Ext r 0x1 d =
      (parseExGenericFlow d).map
        (fun v => { r with generic_flow := some v }) := rfl

theorem applyV3Ext_arm2 (r : RecordV3) (d : List Nat) :
    applyV3Ext r 0x2 d =
      (parseExIpv4Flow d).map
        (fun v => { r with ipv4_flow := some v }) := rfl

theorem applyV3Ext_arm3 (r : RecordV3) (d : List Nat) :
    applyV3Ext r 0x3 d =
      (parseExIpv6Flow d).map
        (fun v => { r with ipv6_flow := some v }) := rfl

theorem applyV3Ext_arm4 (r : RecordV3) (d : List Nat) :
    applyV3Ext r 0x4 d =
      (parseExFlowMisc d).map
        (fun v => { r with flow_misc := some v }) := rfl

theorem applyV3Ext_arm5 (r : RecordV3) (d : List Nat) :
    applyV3Ext r 0x5 d =
      (parseExCntFlow d).map
        (fun v => { r with cnt_flow := some v }) := rfl

theorem applyV3Ext_arm6 (r : RecordV3) (d : List Nat) :
    applyV3Ext r 0x6 d =
      (parseExVlan d).map
        (fun v => { r with vlan := some v }) := rfl

theorem applyV3Ext_arm7 (r : RecordV3) (d : List Nat) :
    applyV3Ext r 0x7 d =
      (parseExAsRouting d).map
        (fun v => { r with as_routing := some v }) := rfl

theorem applyV3Ext_arm8 (r : RecordV3) (d : List Nat) :
    applyV3Ext r 0x12 d =
      (parseExSamplerInfo d).map
        (fun v => { r with sampler_info := some v }) := rfl

theorem applyV3Ext_arm9 (r : RecordV3) (d : List Nat) :
    applyV3Ext r 0x16 d =
      (parseExNselXLatePort d).map
        (fun v => { r with nsel_xlate_port := some v }) := rfl

theorem applyV3Ext_arm10 (r : RecordV3) (d : List Nat) :
    applyV3Ext r 0x8 d =
      (parseExBgpNextHopIpv4 d).map
        (fun v => { r with bgp_next_hop_ipv4 := some v }) := rfl

theorem applyV3Ext_arm11 (r : RecordV3) (d : List Nat) :
    applyV3Ext r 0x9 d =
      (parseExBgpNextHopIpv6 d).map
        (fun v => { r with bgp_next_hop_ipv6 := some v }) := rfl

theorem applyV3Ext_arm12 (r : RecordV3) (d : List Nat) :
    applyV3Ext r 0xa d =
      (parseExIpNextHopIpv4 d).map
        (fun v => { r with ip_next_hop_ipv4 := some v }) := rfl

theorem applyV3Ext_arm13 (r : RecordV3) (d : List Nat) :
    applyV3Ext r 0xb d =
      (parseExIpNextHopIpv6 d).map
        (fun v => { r with ip_next_hop_ipv6 := some v }) := rfl

theorem applyV3Ext_arm14 (r : RecordV3) (d : List Nat) :
    applyV3Ext r 0xc d =
      (parseExIpReceivedIpv4 d).map
        (fun v => { r with ip_received_ipv4 := some v }) := rfl

theorem applyV3Ext_arm15 (r : RecordV3) (d : List Nat) :
    applyV3Ext r 0xd d =
      (parseExIpReceivedIpv6 d).map
        (fun v => { r with ip_received_ipv6 := some v }) := rfl

theorem applyV3Ext_arm16 (r : RecordV3) (d : List Nat) :
    applyV3Ext r 0x1d d =
      (parseInPayload r.head.header.size d).map
        (fun v => { r with in_payload := some v }) := rfl

theorem applyV3Ext_arm17 (r : RecordV3) (d : List Nat) :
    applyV3Ext r 0xf d =
      (parseExMacAddress d).map
        (fun v => { r with mac_address := some v }) := rfl

theorem applyV3Ext_arm18 (r : RecordV3) (d : List Nat) :
    applyV3Ext r 0x26 d =
      (parseExLayer2 d).map
        (fun v => { r with layer2 := some v }) := rfl

theorem applyV3Ext_arm19 (r : RecordV3) (d : List Nat) :
    applyV3Ext r 0xe d =
      (parseExMPLS d).map
        (fun v => { r with mpls := some v }) := rfl

theorem applyV3Ext_arm20 (r : RecordV3) (d : List Nat) :
    applyV3Ext r 0x1f d =
      (parseExTunIpv4 d).map
        (fun v => { r with tun_ipv4 := some v }) := rfl

theorem applyV3Ext_arm21 (r : RecordV3) (d : List Nat) :
    applyV3Ext r 0x20 d =
      (parseExTunIpv6 d).map
        (fun v => { r with tun_ipv6 := some v }) := rfl

theorem readV3Elements_zero (r : RecordV3) (cur : List Nat) :
    readV3Elements 0 r cur = .ok (r, cur) := rfl

theorem readV3Elements_succ (k : Nat) (r : RecordV3) (cur : List Nat) :
    readV3Elements (k + 1) r cur =
      match readV3Element r cur with
      | .ok (r2, c2) => readV3Elements k r2 c2
      | .err => .err
      | .panic => .panic := rfl

theorem applyV3Exts_nil (r : RecordV3) : applyV3Exts r [] = some r := rfl

theorem applyV3Exts_cons (r : RecordV3) (e : Nat) (p : List Nat)
    (fs : List (Nat × List Nat)) :
    applyV3Exts r ((e, p) :: fs) =
      match applyV3Ext r e p with
      | none => none
      | some r2 => applyV3Exts r2 fs := rfl

/-- One loop iteration over a well-framed sub-extension: the two header
u16s and exactly the declared payload are consumed, and the effect on the
record is the id dispatch on the payload. -/
theorem readV3Element_encoded (r : RecordV3) (e : Nat) (p rest : List Nat)
    (he : e < 2 ^ 16) (hp : p.length + 4 < 2 ^ 16) :
    readV3Element r (u16le e ++ (u16le (p.length + 4) ++ (p ++ rest))) =
      match applyV3Ext r e p with
      | some r2 => .ok (r2, rest)
      | none => .err := by
  have hwrap : (p.length + 4 + 2 ^ 64 - 4) % 2 ^ 64 = p.length := by
    have h1 : p.length + 4 + 2 ^ 64 - 4 = p.length + 2 ^ 64 := by omega
    rw [h1, Nat.add_mod_right, Nat.mod_eq_of_lt (by omega)]
  have hnot : ¬ ISIZE_MAX < p.length := by
    simp only [ISIZE_MAX]
    omega
  simp only [readV3Element,
    readLE_chunk 2 (u16le e) _ (u16le_length e),
    readLE_chunk 2 (u16le (p.length + 4)) _ (u16le_length _),
    leVal_u16le e he, leVal_u16le (p.length + 4) hp, hwrap, if_neg hnot,
    readExact_chunk p.length p rest rfl]
  cases applyV3Ext r e p <;> rfl

theorem readV3Elements_encoded (fs : List (Nat × List Nat))
    (r : RecordV3) (rest : List Nat)
    (h : ∀ f ∈ fs, f.1 < 2 ^ 16 ∧ f.2.length + 4 < 2 ^ 16) :
    readV3Elements fs.length r (encodeSubExts fs ++ rest) =
      match applyV3Exts r fs with
      | some r2 => DecodeOutcome.ok (r2, rest)
      | none => DecodeOutcome.err := by
  induction fs generalizing r with
  | nil =>
    simp [encodeSubExts, readV3Elements_zero, applyV3Exts_nil]
  | cons f fs ih =>
    obtain ⟨e, p⟩ := f
    have h1 := h (e, p) (List.mem_cons_self _ _)
    have hfs := fun g hg => h g (List.mem_cons_of_mem _ hg)
    simp only [encodeSubExts, encodeSubExt, List.append_assoc,
      List.length_cons]
    rw [readV3Elements_succ,
      readV3Element_encoded r e p (encodeSubExts fs ++ rest) h1.1 h1.2,
      applyV3Exts_cons]
    cases happ : applyV3Ext r e p with
    | none => rfl
    | some r2 => exact ih r2 hfs

/-- C6: a RecordV3 sub-extension whose ext_id is not one of the recognized
ids consumes exactly `ext_size - 4` payload bytes — the cursor resumes at
`rest` — and the decoded record state is unchanged: every typed optional
sub-structure keeps its prior value. -/
theorem C6_unknown_subextension_skipped (r : RecordV3)
    (ce cs p rest : List Nat) (hce : ce.length = 2) (hcs : cs.length = 2)
    (hunknown : leVal ce 2 ∉ knownExtIds) (hsz : 4 ≤ leVal cs 2)
    (hp : p.length = leVal cs 2 - 4) :
    readV3Element r (ce ++ (cs ++ (p ++ rest))) = .ok (r, rest) := by
  have hlt : leVal cs 2 < 2 ^ 16 := by
    have := leVal_lt cs 2
    norm_num at this
    exact this
  have hwrap : (leVal cs 2 + 2 ^ 64 - 4) % 2 ^ 64 = leVal cs 2 - 4 := by
    have h1 : leVal cs 2 + 2 ^ 64 - 4 = leVal cs 2 - 4 + 2 ^ 64 := by
      omega
    rw [h1, Nat.add_mod_right, Nat.mod_eq_of_lt (by omega)]
  have hnot : ¬ ISIZE_MAX < leVal cs 2 - 4 := by
    simp only [ISIZE_MAX]
    omega
  have hnot2 : ¬ ISIZE_MAX < p.length := by
    rw [hp]
    exact hnot
  simp only [readV3Element, readLE_chunk 2 ce _ hce,
    readLE_chunk 2 cs _ hcs, hwrap, if_neg hnot, ← hp,
    readExact_chunk p.length p rest rfl,
    applyV3Ext_unknown r (leVal ce 2) p hunknown]
  rw [if_neg hnot2]

theorem C6_witness :
    readV3Element (initRecordV3 ⟨⟨0xb, 19⟩, 1, 0, 0, 0, 0, 0⟩)
        ([0xff, 0] ++ ([12, 0] ++ ([1, 2, 3, 4, 5, 6, 7, 8] ++ []))) =
      .ok (initRecordV3 ⟨⟨0xb, 19⟩, 1, 0, 0, 0, 0, 0⟩, []) :=
  C6_unknown_subextension_skipped _ [0xff, 0] [12, 0]
    [1, 2, 3, 4, 5, 6, 7, 8] [] rfl rfl (by decide) (by decide) rfl

/-- C7: RecordV3 decoding processes exactly `num_elements` sub-extensions,
each framed as ext_id (u16), ext_size (u16, including its own 4-byte
sub-header) and `ext_size - 4` payload bytes — the full decode over a
well-framed element list is the left-to-right fold of the id dispatch —
and processing a sub-extension of a given id does not depend on the value
previously decoded for that id, so a later occurrence of the same known
id overwrites an earlier one. -/
theorem C7_v3_framing_and_last_wins :
    (∀ (hd : NfFileRecordHeader) (cn e1 e2 cx f1 f2 rest : List Nat)
       (fs : List (Nat × List Nat)),
      cn.length = 2 → e1.length = 1 → e2.length = 1 → cx.length = 2 →
      f1.length = 1 → f2.length = 1 → leVal cn 2 = fs.length →
      (∀ f ∈ fs, f.1 < 2 ^ 16 ∧ f.2.length + 4 < 2 ^ 16) →
      RecordV3.new hd
          (cn ++ (e1 ++ (e2 ++ (cx ++ (f1 ++ (f2 ++
            (encodeSubExts fs ++ rest))))))) =
        match applyV3Exts
            (initRecordV3 { header := hd, num_elements := leVal cn 2,
                            engine_type := leVal e1 1,
                            engine_id := leVal e2 1,
                            exporter_id := leVal cx 2,
                            flags := leVal f1 1,
                            nf_version := leVal f2 1 }) fs with
        | some r => DecodeOutcome.ok r
        | none => DecodeOutcome.err) ∧
    (∀ (e : Nat) (p p' : List Nat) (r0 r1 : RecordV3),
      applyV3Ext r0 e p' = some r1 →
      applyV3Ext r1 e p = applyV3Ext r0 e p) := by
  constructor
  · intro hd cn e1 e2 cx f1 f2 rest fs hcn he1 he2 hcx hf1 hf2 hn hfs
    unfold RecordV3.new
    simp only [readLE_chunk 2 cn _ hcn,
      readU8_chunk e1 _ he1, readU8_chunk e2 _ he2,
      readLE_chunk 2 cx _ hcx, readU8_chunk f1 _ hf1,
      readU8_chunk f2 _ hf2, hn]
    rw [readV3Elements_encoded fs _ rest hfs]
    cases applyV3Exts (initRecordV3 ⟨hd, fs.length, leVal e1 1,
      leVal e2 1, leVal cx 2, leVal f1 1, leVal f2 1⟩) fs <;> rfl
  · intro e p p' r0 r1 h
    by_cases h1 : e = 0x1
    · subst h1
      rw [applyV3Ext_arm1] at h
      rw [Option.map_eq_some'] at h
      obtain ⟨v', hp', rfl⟩ := h
      rw [applyV3Ext_arm1, applyV3Ext_arm1]
    by_cases h2 : e = 0x2
    · subst h2
      rw [applyV3Ext_arm2] at h
      rw [Option.map_eq_some'] at h
      obtain ⟨v', hp', rfl⟩ := h
      rw [applyV3Ext_arm2, applyV3Ext_arm2]
    by_cases h3 : e = 0x3
    · subst h3
      rw [applyV3Ext_arm3] at h
      rw [Option.map_eq_some'] at h
      obtain ⟨v', hp', rfl⟩ := h
      rw [applyV3Ext_arm3, applyV3Ext_arm3]
    by_cases h4 : e = 0x4
    · subst h4
      rw [applyV3Ext_arm4] at h
      rw [Option.map_eq_some'] at h
      obtain ⟨v', hp', rfl⟩ := h
      rw [applyV3Ext_arm4, applyV3Ext_arm4]
    by_cases h5 : e = 0x5
    · subst h5
      rw [applyV3Ext_arm5] at h
      rw [Option.map_eq_some'] at h
      obtain ⟨v', hp', rfl⟩ := h
      rw [applyV3Ext_arm5, applyV3Ext_arm5]
    by_cases h6 : e = 0x6
    · subst h6
      rw [applyV3Ext_arm6] at h
      rw [Option.map_eq_some'] at h
      obtain ⟨v', hp', rfl⟩ := h
      rw [applyV3Ext_arm6, applyV3Ext_arm6]
    by_cases h7 : e = 0x7
    · subst h7
      rw [applyV3Ext_arm7] at h
      rw [Option.map_eq_some'] at h
      obtain ⟨v', hp', rfl⟩ := h
      rw [applyV3Ext_arm7, applyV3Ext_arm7]
    by_cases h8 : e = 0x12
    · subst h8
      rw [applyV3Ext_arm8] at h
      rw [Option.map_eq_some'] at h
      obtain ⟨v', hp', rfl⟩ := h
      rw [applyV3Ext_arm8, applyV3Ext_arm8]
    by_cases h9 : e = 0x16
    · subst h9
      rw [applyV3Ext_arm9] at h
      rw [Option.map_eq_some'] at h
      obtain ⟨v', hp', rfl⟩ := h
      rw [applyV3Ext_arm9, applyV3Ext_arm9]
    by_cases h10 : e = 0x8
    · subst h10
      rw [applyV3Ext_arm10] at h
      rw [Option.map_eq_some'] at h
      obtain ⟨v', hp', rfl⟩ := h
      rw [applyV3Ext_arm10, applyV3Ext_arm10]
    by_cases h11 : e = 0x9
    · subst h11
      rw [applyV3Ext_arm11] at h
      rw [Option.map_eq_some'] at h
      obtain ⟨v', hp', rfl⟩ := h
      rw [applyV3Ext_arm11, applyV3Ext_arm11]
    by_cases h12 : e = 0xa
    · subst h12
      rw [applyV3Ext_arm12] at h
      rw [Option.map_eq_some'] at h
      obtain ⟨v', hp', rfl⟩ := h
      rw [applyV3Ext_arm12, applyV3Ext_arm12]
    by_cases h13 : e = 0xb
    · subst h13
      rw [applyV3Ext_arm13] at h
      rw [Option.map_eq_some'] at h
      obtain ⟨v', hp', rfl⟩ := h
      rw [applyV3Ext_arm13, applyV3Ext_arm13]
    by_cases h14 : e = 0xc
    · subst h14
      rw [applyV3Ext_arm14] at h
      rw [Option.map_eq_some'] at h
      obtain ⟨v', hp', rfl⟩ := h
      rw [applyV3Ext_arm14, applyV3Ext_arm14]
    by_cases h15 : e = 0xd
    · subst h15
      rw [applyV3Ext_arm15] at h
      rw [Option.map_eq_some'] at h
      obtain ⟨v', hp', rfl⟩ := h
      rw [applyV3Ext_arm15, applyV3Ext_arm15]
    by_cases h16 : e = 0x1d
    · subst h16
      rw [applyV3Ext_arm16] at h
      rw [Option.map_eq_some'] at h
      obtain ⟨v', hp', rfl⟩ := h
      rw [applyV3Ext_arm16, applyV3Ext_arm16]
    by_cases h17 : e = 0xf
    · subst h17
      rw [applyV3Ext_arm17] at h
      rw [Option.map_eq_some'] at h
      obtain ⟨v', hp', rfl⟩ := h
      rw [applyV3Ext_arm17, applyV3Ext_arm17]
    by_cases h18 : e = 0x26
    · subst h18
      rw [applyV3Ext_arm18] at h
      rw [Option.map_eq_some'] at h
      obtain ⟨v', hp', rfl⟩ := h
      rw [applyV3Ext_arm18, applyV3Ext_arm18]
    by_cases h19 : e = 0xe
    · subst h19
      rw [applyV3Ext_arm19] at h
      rw [Option.map_eq_some'] at h
      obtain ⟨v', hp', rfl⟩ := h
      rw [applyV3Ext_arm19, applyV3Ext_arm19]
    by_cases h20 : e = 0x1f
    · subst h20
      rw [applyV3Ext_arm20] at h
      rw [Option.map_eq_some'] at h
      obtain ⟨v', hp', rfl⟩ := h
      rw [applyV3Ext_arm20, applyV3Ext_arm20]
    by_cases h21 : e = 0x20
    · subst h21
      rw [applyV3Ext_arm21] at h
      rw [Option.map_eq_some'] at h
      obtain ⟨v', hp', rfl⟩ := h
      rw [applyV3Ext_arm21, applyV3Ext_arm21]
    · rw [applyV3Ext_unknown r0 e p' (by
        simp only [knownExtIds, List.mem_cons, List.not_mem_nil,
          or_false, not_or]
        omega)] at h
      injection h with h0
      rw [h0]

theorem C7_witness :
    RecordV3.new ⟨0xb, 35⟩
        ([2, 0] ++ ([0] ++ ([0] ++ ([0, 0] ++ ([0] ++ ([0] ++
          (encodeSubExts [(6, [1, 0, 0, 0, 5, 0, 0, 0]),
                          (6, [2, 0, 0, 0, 9, 0, 0, 0])] ++ []))))))) =
      DecodeOutcome.ok
        { initRecordV3 ⟨⟨0xb, 35⟩, 2, 0, 0, 0, 0, 0⟩ with
          vlan := some ⟨2, 9⟩ } ∧
    applyV3Ext
        { initRecordV3 ⟨⟨0xb, 35⟩, 2, 0, 0, 0, 0, 0⟩ with
          vlan := some ⟨1, 5⟩ } 6 [2, 0, 0, 0, 9, 0, 0, 0] =
      applyV3Ext (initRecordV3 ⟨⟨0xb, 35⟩, 2, 0, 0, 0, 0, 0⟩) 6
        [2, 0, 0, 0, 9, 0, 0, 0] := by
  constructor
  · rw [C7_v3_framing_and_last_wins.1 ⟨0xb, 35⟩ [2, 0] [0] [0] [0, 0] [0]
      [0] []
      [(6, [1, 0, 0, 0, 5, 0, 0, 0]), (6, [2, 0, 0, 0, 9, 0, 0, 0])] rfl
      rfl rfl rfl rfl rfl (by decide) (by decide)]
    rfl
  · exact C7_v3_framing_and_last_wins.2 6 [2, 0, 0, 0, 9, 0, 0, 0]
      [1, 0, 0, 0, 5, 0, 0, 0] (initRecordV3 ⟨⟨0xb, 35⟩, 2, 0, 0, 0, 0, 0⟩)
      { initRecordV3 ⟨⟨0xb, 35⟩, 2, 0, 0, 0, 0, 0⟩ with
        vlan := some ⟨1, 5⟩ } rfl

/-! ## Block framer record dispatch (`src/block.rs`) -/

def TYPE_COMMON_RECORD_V0 : Nat := 0x0001

def TYPE_EXTENSION_MAP : Nat := 0x0002

def TYPE_PORT_HISTOGRAM : Nat := 0x0003

def TYPE_BPP_HISTOGRAM : Nat := 0x0004

def TYPE_LEGACY_RECORD_1 : Nat := 0x0005

def TYPE_LEGACY_RECORD_2 : Nat := 0x0006

def TYPE_EXPORTER_INFO : Nat := 0x0007

def TYPE_EXPORTER_STAT : Nat := 0x0008

def TYPE_LEGACY_SAMPLER : Nat := 0x0009

def TYPE_COMMON_RECORD : Nat := 0x000a

def TYPE_RECORD_V3 : Nat := 0x000b

def TYPE_NBAR_RECORD : Nat := 0x000c

def TYPE_IF_NAME_RECORD : Nat := 0x000d

def TYPE_VRF_NAME_RECORD : Nat := 0x000e

def TYPE_SAMPLER : Nat := 0x000f

def TYPE_IDENT : Nat := 0x8001

def TYPE_STAT : Nat := 0x8002

/-- The i32 value of a 32-bit pattern (`read_i32::<LittleEndian>`):
two's complement. -/
def i32ofBits (v : Nat) : Int :=
  if v < 2 ^ 31 then (v : Int) else (v : Int) - 2 ^ 32

/-- exporter.rs `SamplerV0Record`. -/
structure SamplerV0Record where
  header : NfFileRecordHeader
  id : Int
  interval : Nat
  algorithm : Nat
  exporter_sysid : Nat
deriving DecidableEq, Repr

/-- exporter.rs `read_samplerv0_record` (lines 78–88): id (i32),
interval (u32), algorithm (u16), exporter_sysid (u16); `none` models the
`.unwrap()` panics on a short payload. -/
def read_samplerv0_record (header : NfFileRecordHeader)
    (record_data : List Nat) : Option SamplerV0Record :=
  match readLE 4 record_data with
  | none => none
  | some (id, c) =>
  match readLE 4 c with
  | none => none
  | some (interval, c) =>
  match readLE 2 c with
  | none => none
  | some (algorithm, c) =>
  match readLE 2 c with
  | none => none
  | some (exporter_sysid, _) =>
    some { header, id := i32ofBits id, interval, algorithm,
           exporter_sysid }

/-- record.rs `RecordKind` (the tagged union block.rs dispatches into; the
declaration itself sits in a part of record.rs not in this snapshot — the
constructors are exactly those block.rs constructs). -/
inductive RecordKind where
  | ExtensionMap (em : ExtensionMap)
  | ExporterInfo (e : ExporterInfoRecordV1)
  | SamplerV0 (s : SamplerV0Record)
  | Record (r : Record)
  | RecordV3 (r : RecordV3)
  | Ident (d : List Nat)
  | Stat (s : StatRecordV2)
  | Unimplemented
deriving Repr

/-- `_ = self.decoder.read_exact(&mut record_data)`: the result is
discarded, so on a short stream the zero-initialized buffer is kept and
the (cursor) position stays put. -/
def blockReadPayload (n : Nat) (cur : List Nat) : List Nat × List Nat :=
  if n ≤ cur.length then (cur.take n, cur.drop n)
  else (List.replicate n 0, cur)

/-- block.rs `DataBlock::_read_record_kind` (lines 51–75): allocates
`vec![0; header.size as usize - 4]` — the usize subtraction wraps, and for
`size < 4` the wrapped length exceeds `isize::MAX` so the allocation
panics — reads the payload (result discarded), and dispatches on
`header.rtype`.  Every decoder result is `.unwrap()`ed, so a decoder
failure is also a panic, never a returned error. -/
def _read_record_kind (header : NfFileRecordHeader) (ext : List Nat)
    (cur : List Nat) : DecodeOutcome (RecordKind × List Nat) :=
  if ISIZE_MAX < (header.size + 2 ^ 64 - 4) % 2 ^ 64 then .panic
  else
    match blockReadPayload ((header.size + 2 ^ 64 - 4) % 2 ^ 64) cur with
    | (record_data, cur2) =>
      if header.rtype = TYPE_COMMON_RECORD_V0 then .ok (.Unimplemented, cur2)
      else if header.rtype = TYPE_EXTENSION_MAP then
        match read_extension_map header record_data with
        | some em => .ok (.ExtensionMap em, cur2)
        | none => .panic
      else if header.rtype = TYPE_PORT_HISTOGRAM then .ok (.Unimplemented, cur2)
      else if header.rtype = TYPE_BPP_HISTOGRAM then .ok (.Unimplemented, cur2)
      else if header.rtype = TYPE_LEGACY_RECORD_1 then .ok (.Unimplemented, cur2)
      else if header.rtype = TYPE_LEGACY_RECORD_2 then .ok (.Unimplemented, cur2)
      else if header.rtype = TYPE_EXPORTER_INFO then
        match read_exporter_record header record_data with
        | some e => .ok (.ExporterInfo e, cur2)
        | none => .panic
      else if header.rtype = TYPE_EXPORTER_STAT then .ok (.Unimplemented, cur2)
      else if header.rtype = TYPE_LEGACY_SAMPLER then
        match read_samplerv0_record header record_data with
        | some s => .ok (.SamplerV0 s, cur2)
        | none => .panic
      else if header.rtype = TYPE_COMMON_RECORD then
        match new_record header record_data ext with
        | some r => .ok (.Record r, cur2)
        | none => .panic
      else if header.rtype = TYPE_RECORD_V3 then
        match RecordV3.new header record_data with
        | .ok r => .ok (.RecordV3 r, cur2)
        | .err => .panic
        | .panic => .panic
      else if header.rtype = TYPE_NBAR_RECORD then .ok (.Unimplemented, cur2)
      else if header.rtype = TYPE_IF_NAME_RECORD then .ok (.Unimplemented, cur2)
      else if header.rtype = TYPE_VRF_NAME_RECORD then .ok (.Unimplemented, cur2)
      else if header.rtype = TYPE_SAMPLER then .ok (.Unimplemented, cur2)
      else if header.rtype = TYPE_IDENT then .ok (.Ident record_data, cur2)
      else if header.rtype = TYPE_STAT then
        match StatRecordV2.fromBytes record_data with
        | some s => .ok (.Stat s, cur2)
        | none => .panic
      else .ok (.Unimplemented, cur2)

/-- C10: record decoding is only total for declared sizes of at least 4.
A 4-byte record header declaring `size < 4` makes block.rs
`_read_record_kind` panic (wrapped usize subtraction, then capacity
overflow on the allocation), and a RecordV3 sub-extension header
declaring `size < 4` makes the element loop panic the same way; neither
site returns a `ParseError`. -/
theorem C10_size_underflow_panics (header : NfFileRecordHeader)
    (ext cur : List Nat) (r : RecordV3) (ce cs rest : List Nat)
    (hsz : header.size < 4) (hce : ce.length = 2) (hcs : cs.length = 2)
    (hsz3 : leVal cs 2 < 4) :
    _read_record_kind header ext cur = .panic ∧
    readV3Element r (ce ++ (cs ++ rest)) = .panic := by
  have hbig : ∀ s : Nat, s < 4 → ISIZE_MAX < (s + 2 ^ 64 - 4) % 2 ^ 64 := by
    intro s hs
    have h1 : s + 2 ^ 64 - 4 < 2 ^ 64 := by omega
    rw [Nat.mod_eq_of_lt h1]
    simp only [ISIZE_MAX]
    omega
  constructor
  · unfold _read_record_kind
    rw [if_pos (hbig header.size hsz)]
  · simp only [readV3Element, readLE_chunk 2 ce _ hce,
      readLE_chunk 2 cs _ hcs, if_pos (hbig (leVal cs 2) hsz3)]

theorem C10_witness :
    _read_record_kind ⟨0x000a, 3⟩ [] [] = .panic ∧
    readV3Element (initRecordV3 ⟨⟨0xb, 11⟩, 1, 0, 0, 0, 0, 0⟩)
        ([0xff, 0] ++ ([3, 0] ++ [])) = .panic :=
  C10_size_underflow_panics ⟨0x000a, 3⟩ [] []
    (initRecordV3 ⟨⟨0xb, 11⟩, 1, 0, 0, 0, 0, 0⟩) [0xff, 0] [3, 0] []
    (by decide) rfl rfl (by decide)

end RustNfdump
